import Mathlib

/-! # Strategy builder front end

A shallow embedding of the graph normalization performed by
`App.compileStrategy`, `BacktestPanel.runBacktest` and
`ConfigEditor.generateFromGraph`, of the parameter edits of
`App.onParameterChange`, of the compile and import of `App`, of the backtest
submission and progress poll of `BacktestPanel`, of the chart data of
`BacktestResults`, of the requests of `ConfigEditor`, and of the status poll and
control actions of `PipelineMonitor`, followed by the properties established
about them.

JavaScript values are embedded as the inductive type `JsVal`; objects are
association lists of properties.
-/

set_option autoImplicit false

namespace StrategyBuilder

/-! ## JavaScript values -/

/-- JavaScript values as they occur in node data, edges and JSON responses.
Numbers are the integer-valued ones (the code below only tests them for
truthiness, copies them and prints them); `fn` is a function value, carrying its
source text; `obj` is a plain object, its properties in definition order. Arrays
are not modelled. -/
inductive JsVal where
  | undefined
  | null
  | bool (b : Bool)
  | num (n : Int)
  | str (s : String)
  | fn (src : String)
  | obj (props : List (String × JsVal))

/-- The properties of a plain object. The list is read like an object literal:
a later entry for a key overrides an earlier entry for the same key. -/
abbrev JsObj := List (String × JsVal)

namespace JsVal

mutual
/-- Structural equality of values is decidable. -/
def decEq : (a b : JsVal) → Decidable (a = b)
  | undefined, undefined => isTrue rfl
  | null, null => isTrue rfl
  | bool a, bool b =>
    if h : a = b then isTrue (by rw [h]) else isFalse (by intro e; cases e; exact h rfl)
  | num a, num b =>
    if h : a = b then isTrue (by rw [h]) else isFalse (by intro e; cases e; exact h rfl)
  | str a, str b =>
    if h : a = b then isTrue (by rw [h]) else isFalse (by intro e; cases e; exact h rfl)
  | fn a, fn b =>
    if h : a = b then isTrue (by rw [h]) else isFalse (by intro e; cases e; exact h rfl)
  | obj ps, obj qs =>
    match decEqProps ps qs with
    | isTrue h => isTrue (by rw [h])
    | isFalse h => isFalse (by intro e; cases e; exact h rfl)
  | undefined, null => isFalse (by intro e; cases e)
  | undefined, bool _ => isFalse (by intro e; cases e)
  | undefined, num _ => isFalse (by intro e; cases e)
  | undefined, str _ => isFalse (by intro e; cases e)
  | undefined, fn _ => isFalse (by intro e; cases e)
  | undefined, obj _ => isFalse (by intro e; cases e)
  | null, undefined => isFalse (by intro e; cases e)
  | null, bool _ => isFalse (by intro e; cases e)
  | null, num _ => isFalse (by intro e; cases e)
  | null, str _ => isFalse (by intro e; cases e)
  | null, fn _ => isFalse (by intro e; cases e)
  | null, obj _ => isFalse (by intro e; cases e)
  | bool _, undefined => isFalse (by intro e; cases e)
  | bool _, null => isFalse (by intro e; cases e)
  | bool _, num _ => isFalse (by intro e; cases e)
  | bool _, str _ => isFalse (by intro e; cases e)
  | bool _, fn _ => isFalse (by intro e; cases e)
  | bool _, obj _ => isFalse (by intro e; cases e)
  | num _, undefined => isFalse (by intro e; cases e)
  | num _, null => isFalse (by intro e; cases e)
  | num _, bool _ => isFalse (by intro e; cases e)
  | num _, str _ => isFalse (by intro e; cases e)
  | num _, fn _ => isFalse (by intro e; cases e)
  | num _, obj _ => isFalse (by intro e; cases e)
  | str _, undefined => isFalse (by intro e; cases e)
  | str _, null => isFalse (by intro e; cases e)
  | str _, bool _ => isFalse (by intro e; cases e)
  | str _, num _ => isFalse (by intro e; cases e)
  | str _, fn _ => isFalse (by intro e; cases e)
  | str _, obj _ => isFalse (by intro e; cases e)
  | fn _, undefined => isFalse (by intro e; cases e)
  | fn _, null => isFalse (by intro e; cases e)
  | fn _, bool _ => isFalse (by intro e; cases e)
  | fn _, num _ => isFalse (by intro e; cases e)
  | fn _, str _ => isFalse (by intro e; cases e)
  | fn _, obj _ => isFalse (by intro e; cases e)
  | obj _, undefined => isFalse (by intro e; cases e)
  | obj _, null => isFalse (by intro e; cases e)
  | obj _, bool _ => isFalse (by intro e; cases e)
  | obj _, num _ => isFalse (by intro e; cases e)
  | obj _, str _ => isFalse (by intro e; cases e)
  | obj _, fn _ => isFalse (by intro e; cases e)
/-- Structural equality of property lists is decidable. -/
def decEqProps : (ps qs : List (String × JsVal)) → Decidable (ps = qs)
  | [], [] => isTrue rfl
  | [], _ :: _ => isFalse (by intro e; cases e)
  | _ :: _, [] => isFalse (by intro e; cases e)
  | (k, v) :: ps, (k', v') :: qs =>
    if hk : k = k' then
      match decEq v v' with
      | isTrue hv =>
        match decEqProps ps qs with
        | isTrue hp => isTrue (by rw [hk, hv, hp])
        | isFalse hp => isFalse (by intro e; cases e; exact hp rfl)
      | isFalse hv => isFalse (by intro e; cases e; exact hv rfl)
    else isFalse (by intro e; cases e; exact hk rfl)
end

instance : DecidableEq JsVal := decEq

instance : Inhabited JsVal := ⟨undefined⟩

/-- JavaScript truthiness (`!!v`): `undefined`, `null`, `false`, `0` and the
empty string are falsy, every other value (every object and function too) is
truthy. -/
def truthy : JsVal → Bool
  | undefined => false
  | null => false
  | bool b => b
  | num n => decide (n ≠ 0)
  | str s => decide (s ≠ "")
  | fn _ => true
  | obj _ => true

/-- The operator `a || b`: `a` when `a` is truthy, else `b`. -/
def or (a b : JsVal) : JsVal :=
  if a.truthy then a else b

/-- String conversion, as performed by a template literal. -/
def toStr : JsVal → String
  | undefined => "undefined"
  | null => "null"
  | bool b => if b then "true" else "false"
  | num n => toString n
  | str s => s
  | fn src => src
  | obj _ => "[object Object]"

/-- The values the data model allows for a parameter: strings and numbers. -/
def isStrOrNum : JsVal → Bool
  | str _ => true
  | num _ => true
  | _ => false

end JsVal

namespace JsObj

/-- Own-property lookup: the value of the last entry for key `k`, if any. -/
def get? (k : String) : JsObj → Option JsVal
  | [] => none
  | (k', v) :: rest =>
    match get? k rest with
    | some w => some w
    | none => if k' = k then some v else none

/-- Whether the object has an own property `k`. -/
def has (o : JsObj) (k : String) : Bool :=
  o.any (fun p => decide (p.1 = k))

/-- The property read `o.k`: the value of the property, `undefined` when the
object has no such property. -/
def prop (o : JsObj) (k : String) : JsVal :=
  (get? k o).getD JsVal.undefined

/-- The assignment `o[k] = v` on a fresh copy: overwrites the property in place
when it exists, else adds it at the end. -/
def set (o : JsObj) (k : String) (v : JsVal) : JsObj :=
  if o.has k then o.map (fun p => if p.1 = k then (k, v) else p) else o ++ [(k, v)]

/-- The statement `delete o.k`. -/
def delete (o : JsObj) (k : String) : JsObj :=
  o.filter (fun p => decide (p.1 ≠ k))

/-- Object spread `{ ...target, ...src }` onto an already built `target`: each
entry of `src` is assigned in order. -/
def spread (target : JsObj) (src : List (String × JsVal)) : JsObj :=
  src.foldl (fun acc p => set acc p.1 p.2) target

/-- The keys of the object's entries, in order. -/
def keys (o : JsObj) : List String :=
  o.map Prod.fst

end JsObj

namespace JsVal

/-- The property read `v.k` for the property names read by the code below
(`status`, `result`, `message`, `job_id`, `gateway_running` and the like): an
object yields its own property, every other value has no such property and
yields `undefined`. Reading from `undefined` or `null` throws instead; callers
handle these two before reading, except under optional chaining (`v?.k`), where
the read yields `undefined` as here. -/
def getProp (v : JsVal) (k : String) : JsVal :=
  match v with
  | obj ps => JsObj.prop ps k
  | _ => undefined

/-- The own enumerable properties copied by an object spread `{ ...v }`: the
properties of an object, the characters of a string under their index (one entry
per character, which is one UTF-16 code unit for every character of the Basic
Multilingual Plane), and nothing for the other values. -/
def ownEntries : JsVal → List (String × JsVal)
  | obj ps => ps
  | str s => s.toList.enum.map (fun ic => (toString ic.1, str (String.singleton ic.2)))
  | _ => []

end JsVal

/-! ## The graph -/

/-- A React Flow node as far as the normalization reads it: `node.id`,
`node.type`, `node.data` and `node.position`. `data` is an object on every node
of the editing state (initial node, created nodes, imported nodes). -/
structure Node where
  id : String
  type : JsVal
  data : JsObj
  position : JsVal
  deriving DecidableEq

/-- An edge is a plain object (`source`, `target`, `sourceHandle`,
`targetHandle`, and whatever else React Flow or an import stores on it). -/
abbrev Edge := JsObj

/-- A node of the strategy sent to the compiler and the backtester:
`{ id, type, name, parameters, position }`. -/
structure NormalizedNode where
  id : String
  type : JsVal
  name : JsVal
  parameters : JsObj
  position : JsVal
  deriving DecidableEq

/-- The strategy object built by `compileStrategy` (with `target_platform`) and
by `runBacktest` (without). -/
structure Strategy where
  name : JsVal
  nodes : List NormalizedNode
  connections : List JsObj
  target_platform : Option JsVal
  deriving DecidableEq

/-- A node of the request built by `generateFromGraph`: `{ id, type, data }`. -/
structure MappedNode where
  id : String
  type : JsVal
  data : JsObj
  deriving DecidableEq

/-- The four canonical node types of the data model. -/
def canonicalTypes : List JsVal :=
  [JsVal.str "input", JsVal.str "indicator", JsVal.str "logic", JsVal.str "action"]

/-- The nested sub-mapping spread over the node data, `node.data.parameters || {}`,
as the list of properties the spread copies. -/
def nestedParameters (node : Node) : List (String × JsVal) :=
  ((node.data.prop "parameters").or (JsVal.obj [])).ownEntries

/-! ## `BacktestPanel.jsx` -/

namespace BacktestPanel

/-- The name resolution of `runBacktest` (lines 79-84). -/
def nodeName (node : Node) : JsVal :=
  let nodeName := node.data.prop "label"
  if nodeName.truthy = false then
    if node.type = JsVal.str "logicNode" then JsVal.str "Logic"
    else if node.type = JsVal.str "actionNode" then
      JsVal.str ("Action " ++ (node.data.prop "actionType").toStr)
    else JsVal.str "Node"
  else nodeName

/-- The type resolution of `runBacktest` (lines 86-89). -/
def nodeType (node : Node) : JsVal :=
  let nodeType := node.type.or (JsVal.str "indicator")
  let nodeType :=
    if node.type = JsVal.str "indicatorNode" ∨ node.type = JsVal.str "default"
        ∨ node.type.truthy = false then JsVal.str "indicator" else nodeType
  let nodeType := if node.type = JsVal.str "logicNode" then JsVal.str "logic" else nodeType
  let nodeType := if node.type = JsVal.str "actionNode" then JsVal.str "action" else nodeType
  nodeType

/-- The parameter set of `runBacktest` (lines 91-93): the node data, overlaid
with the nested parameters, minus the callback and the label. -/
def params (node : Node) : JsObj :=
  let params := JsObj.spread (JsObj.spread [] node.data) (nestedParameters node)
  let params := params.delete "onParameterChange"
  let params := params.delete "label"
  params

/-- The callback of `nodes.map` in `runBacktest` (lines 78-102). -/
def normalizeNode (node : Node) : NormalizedNode :=
  { id := node.id
    type := nodeType node
    name := nodeName node
    parameters := params node
    position := node.position.or (JsVal.obj [("x", JsVal.num 0), ("y", JsVal.num 0)]) }

/-- The callback of `edges.map` in `runBacktest` (lines 103-108). -/
def connection (edge : Edge) : JsObj :=
  [ ("source", edge.prop "source"),
    ("target", edge.prop "target"),
    ("sourceHandle", edge.prop "sourceHandle"),
    ("targetHandle", edge.prop "targetHandle") ]

/-- The `strategy` object of `runBacktest` (lines 76-109). -/
def strategy (strategyName : JsVal) (nodes : List Node) (edges : List Edge) : Strategy :=
  { name := strategyName.or (JsVal.str "My Strategy")
    nodes := nodes.map normalizeNode
    connections := edges.map connection
    target_platform := none }

/-- The state of the panel that the progress poll reads and writes.
`pollActive` tells whether the interval stored in `pollRef.current` is running. -/
structure State where
  isRunning : Bool
  results : JsVal
  error : JsVal
  showResults : Bool
  jobId : JsVal
  progress : JsVal
  pollActive : Bool
  deriving DecidableEq

/-- One tick of `poll` (lines 38-59). The argument is the outcome of the
request: `none` when `axios.get` rejects, `some data` when it resolves with body
`data`. Reading `data.status` from `undefined` or `null` throws after
`setProgress`, and the `catch` swallows it. -/
def poll (s : State) : Option JsVal → State
  | none => s
  | some data =>
    let s := { s with progress := data }
    match data with
    | JsVal.undefined => s
    | JsVal.null => s
    | data =>
      if data.getProp "status" = JsVal.str "completed" ∧ (data.getProp "result").truthy = true then
        { s with
          results := data.getProp "result"
          showResults := true
          isRunning := false
          jobId := JsVal.null
          pollActive := false }
      else if data.getProp "status" = JsVal.str "error" then
        { s with
          error := (data.getProp "message").or (JsVal.str "Backtest failed")
          isRunning := false
          jobId := JsVal.null
          pollActive := false }
      else s

end BacktestPanel

/-! ## `App.jsx` -/

namespace App

/-- The name resolution of `compileStrategy` (lines 280-285). -/
def nodeName (node : Node) : JsVal :=
  let nodeName := node.data.prop "label"
  if nodeName.truthy = false then
    if node.type = JsVal.str "logicNode" then JsVal.str "Logic"
    else if node.type = JsVal.str "actionNode" then
      JsVal.str ("Action " ++ (node.data.prop "actionType").toStr)
    else JsVal.str "Node"
  else nodeName

/-- The type resolution of `compileStrategy` (lines 287-291). -/
def nodeType (node : Node) : JsVal :=
  let nodeType := node.type.or (JsVal.str "indicator")
  let nodeType :=
    if node.type = JsVal.str "indicatorNode" ∨ node.type = JsVal.str "default"
        ∨ node.type.truthy = false then JsVal.str "indicator" else nodeType
  let nodeType := if node.type = JsVal.str "logicNode" then JsVal.str "logic" else nodeType
  let nodeType := if node.type = JsVal.str "actionNode" then JsVal.str "action" else nodeType
  nodeType

/-- The parameter set of `compileStrategy` (line 293): the node data overlaid
with the nested parameters; nothing is deleted. -/
def params (node : Node) : JsObj :=
  JsObj.spread (JsObj.spread [] node.data) (nestedParameters node)

/-- The callback of `nodes.map` in `compileStrategy` (lines 278-302). -/
def normalizeNode (node : Node) : NormalizedNode :=
  { id := node.id
    type := nodeType node
    name := nodeName node
    parameters := params node
    position := node.position }

/-- The callback of `edges.map` in `compileStrategy` (lines 303-308). -/
def connection (edge : Edge) : JsObj :=
  [ ("source", edge.prop "source"),
    ("target", edge.prop "target"),
    ("sourceHandle", edge.prop "sourceHandle"),
    ("targetHandle", edge.prop "targetHandle") ]

/-- The `strategy` object of `compileStrategy` (lines 276-310). -/
def strategy (strategyName selectedPlatform : JsVal) (nodes : List Node) (edges : List Edge) :
    Strategy :=
  { name := strategyName
    nodes := nodes.map normalizeNode
    connections := edges.map connection
    target_platform := some selectedPlatform }

end App

/-! ## `ConfigEditor.jsx` -/

namespace ConfigEditor

/-- The type resolution of `generateFromGraph` (lines 174-177); it has no test
for a missing kind in its first `if`. -/
def nodeType (node : Node) : JsVal :=
  let nodeType := node.type.or (JsVal.str "indicator")
  let nodeType :=
    if node.type = JsVal.str "indicatorNode" ∨ node.type = JsVal.str "default"
      then JsVal.str "indicator" else nodeType
  let nodeType := if node.type = JsVal.str "logicNode" then JsVal.str "logic" else nodeType
  let nodeType := if node.type = JsVal.str "actionNode" then JsVal.str "action" else nodeType
  nodeType

/-- The callback of `nodes.map` in `generateFromGraph` (lines 173-181). -/
def mappedNode (node : Node) : MappedNode :=
  let data := JsObj.spread [] node.data
  let data := data.delete "onParameterChange"
  { id := node.id, type := nodeType node, data := data }

/-- The callback of `edges.map` in `generateFromGraph` (lines 183-188). -/
def connection (edge : Edge) : JsObj :=
  [ ("source", edge.prop "source"),
    ("target", edge.prop "target"),
    ("sourceHandle", edge.prop "sourceHandle"),
    ("targetHandle", edge.prop "targetHandle") ]

/-- The graph part of the request of `generateFromGraph` (lines 167-188): with
at most one node it reports an error and builds nothing, else it yields
`mappedNodes` and `mappedConnections`. -/
def generateFromGraph (nodes : List Node) (edges : List Edge) :
    Except String (List MappedNode × List JsObj) :=
  if nodes.length ≤ 1 then Except.error "Build a strategy on the canvas first"
  else Except.ok (nodes.map mappedNode, edges.map connection)

end ConfigEditor

/-! ## Example graphs -/

/-- The initial node of the canvas (`initialNodes` of `App.jsx`, without its
style). -/
def startNode : Node :=
  { id := "start"
    type := JsVal.str "input"
    data := [("label", JsVal.str "Strategy Start")]
    position := JsVal.obj [("x", JsVal.num 250), ("y", JsVal.num 50)] }

/-- The callback stored in the data of created nodes. -/
def onParameterChangeRef : JsVal :=
  JsVal.fn "onParameterChange"

/-- A node as `addLogicNode` creates it. -/
def logicNodeExample : Node :=
  { id := "logic-1"
    type := JsVal.str "logicNode"
    data :=
      [ ("parameters", JsVal.obj [("operator", JsVal.str "crossunder"), ("value", JsVal.str "")]),
        ("onParameterChange", onParameterChangeRef) ]
    position := JsVal.obj [("x", JsVal.num 400), ("y", JsVal.num 300)] }

/-- A buy node as `addActionNode` creates it, with a stale top-level `stopLoss`
of "1" and a nested `stopLoss` of "2". -/
def actionNodeExample : Node :=
  { id := "action-1"
    type := JsVal.str "actionNode"
    data :=
      [ ("actionType", JsVal.str "buy"),
        ("stopLoss", JsVal.str "1"),
        ("parameters",
          JsVal.obj [("actionType", JsVal.str "buy"), ("stopLoss", JsVal.str "2"),
            ("takeProfit", JsVal.str "")]),
        ("onParameterChange", onParameterChangeRef) ]
    position := JsVal.obj [("x", JsVal.num 600), ("y", JsVal.num 300)] }

/-- A node of the built-in React Flow kind `output`. -/
def outputNode : Node :=
  { id := "out"
    type := JsVal.str "output"
    data := [("label", JsVal.str "End")]
    position := JsVal.obj [("x", JsVal.num 0), ("y", JsVal.num 0)] }

/-- An edge as `onConnect` stores it, from the start node to a node that is not
in the graph. -/
def danglingEdge : Edge :=
  [ ("source", JsVal.str "start"),
    ("sourceHandle", JsVal.null),
    ("target", JsVal.str "gone-1"),
    ("targetHandle", JsVal.str "a"),
    ("label", JsVal.str "A"),
    ("id", JsVal.str "reactflow__edge-start-gone-1a") ]

/-- The panel while a job is being polled, as `runBacktest` and the submission
response leave it. -/
def pollingState : BacktestPanel.State :=
  { isRunning := true
    results := JsVal.null
    error := JsVal.str ""
    showResults := false
    jobId := JsVal.str "job-1"
    progress := JsVal.null
    pollActive := true }

/-- A progress response of a finished job, with its result. -/
def completedResponse : JsVal :=
  JsVal.obj
    [ ("status", JsVal.str "completed"), ("phase", JsVal.str "completed"),
      ("progress", JsVal.num 100), ("message", JsVal.str "Done"), ("elapsed", JsVal.num 42),
      ("result", JsVal.obj [("trades", JsVal.num 7)]) ]

/-- A progress response that reports completion but carries no result. -/
def completedNoResultResponse : JsVal :=
  JsVal.obj
    [ ("status", JsVal.str "completed"), ("phase", JsVal.str "completed"),
      ("progress", JsVal.num 100) ]

/-- A progress response of a failed job. -/
def errorResponse : JsVal :=
  JsVal.obj
    [ ("status", JsVal.str "error"), ("phase", JsVal.str "error"),
      ("message", JsVal.str "No data for symbol") ]

/-- A progress response of a failed job without a message. -/
def errorNoMessageResponse : JsVal :=
  JsVal.obj [("status", JsVal.str "error"), ("phase", JsVal.str "error")]

/-! ## JavaScript strings -/

namespace JsString

/-- The pieces between the occurrences of `sep`, on character lists: one piece
more than there are occurrences; the empty list gives one empty piece. -/
def splitOnChar (sep : Char) : List Char → List (List Char)
  | [] => [[]]
  | c :: cs =>
    if c = sep then [] :: splitOnChar sep cs
    else
      match splitOnChar sep cs with
      | [] => [[c]]
      | piece :: pieces => (c :: piece) :: pieces

/-- The method `s.split(sep)` for a separator of one character. -/
def split (sep : Char) (s : String) : List String :=
  (splitOnChar sep s.toList).map String.mk

/-- The characters removed by `trim`: the white space and line terminators of
ECMAScript. -/
def isWhiteSpace (c : Char) : Bool :=
  c.val = 0x09 || c.val = 0x0A || c.val = 0x0B || c.val = 0x0C || c.val = 0x0D ||
  c.val = 0x20 || c.val = 0xA0 || c.val = 0x1680 ||
  (0x2000 ≤ c.val && c.val ≤ 0x200A) ||
  c.val = 0x2028 || c.val = 0x2029 || c.val = 0x202F || c.val = 0x205F ||
  c.val = 0x3000 || c.val = 0xFEFF

/-- The method `s.trim()`: white space removed from both ends. -/
def trim (s : String) : String :=
  String.mk ((s.toList.dropWhile isWhiteSpace).rdropWhile isWhiteSpace)

/-- The method `s.toUpperCase()`, which maps every character to its upper-case
form of one or more characters; the Unicode table of upper-case forms is the
parameter `upper`. -/
def toUpperCase (upper : Char → List Char) (s : String) : String :=
  String.mk (s.toList.flatMap upper)

/-- The upper-case forms of the ASCII characters; other characters are kept. -/
def asciiUpper (c : Char) : List Char :=
  [c.toUpper]

/-- The replacement `s.replace(/[^0-9.]/g, '')`: only digits and dots stay. -/
def keepDigitsAndDots (s : String) : String :=
  String.mk (s.toList.filter (fun c => c.isDigit || c = '.'))

/-- The number of dots of a string. -/
def dotCount (s : String) : Nat :=
  s.toList.count '.'

/-- The method `xs.indexOf(v)` on an array of strings: the first position of `v`,
or -1 when no element is strictly equal to `v`. -/
def indexOf (xs : List String) (v : JsVal) : Int :=
  match v with
  | JsVal.str s => if s ∈ xs then (xs.indexOf s : Int) else -1
  | _ => -1

end JsString

/-! ## `App.jsx`: parameter edits -/

namespace App

/-- The `numericFields` of `onParameterChange` (line 205). -/
def numericFields : List String :=
  ["value", "stopLoss", "takeProfit", "period", "fast", "slow", "signal", "std_dev", "k", "d"]

/-- The input validation of `onParameterChange` (lines 205-212) on the field name
and the text of the input element: `none` when the callback returns at line 210
without an update, else the value that goes on to `setNodes`. -/
def sanitize (key value : String) : Option String :=
  if key ∈ numericFields then
    let sanitized := JsString.keepDigitsAndDots value
    let parts := JsString.split '.' sanitized
    if parts.length > 2 then none else some sanitized
  else some value

/-- The update of the node with the edited id (lines 217-222). -/
def updateNode (key value : String) (node : Node) : Node :=
  let newParams := JsObj.set (JsObj.spread [] (nestedParameters node)) key (JsVal.str value)
  let newData := JsObj.set (JsObj.spread [] node.data) "parameters" (JsVal.obj newParams)
  let newData :=
    if key = "operator" ∨ key = "value" ∨ key = "stopLoss" ∨ key = "takeProfit" then
      JsObj.set newData key (JsVal.str value)
    else newData
  { node with data := newData }

/-- The callback `onParameterChange(id, key, value)` (lines 203-227) as a function
of the node list it updates. -/
def onParameterChange (nds : List Node) (id key value : String) : List Node :=
  match sanitize key value with
  | none => nds
  | some value => nds.map (fun node => if node.id = id then updateNode key value node else node)

end App

/-! ## `BacktestPanel.jsx`: submission, poll loop and phase dots -/

namespace BacktestPanel

/-- The symbol list of `runBacktest` (line 111). -/
def symbolList (upper : Char → List Char) (symbols : String) : List String :=
  ((JsString.split ',' symbols).map
    (fun s => JsString.toUpperCase upper (JsString.trim s))).filter (fun s => decide (s ≠ ""))

/-- The state updates at the start of `runBacktest` (lines 70-74). With the job id
reset the poll effect is torn down. -/
def runBacktestStart (s : State) : State :=
  { s with
    isRunning := true
    error := JsVal.str ""
    results := JsVal.null
    progress := JsVal.null
    jobId := JsVal.null
    pollActive := false }

/-- The error thrown by reading `job_id` from a response body that is `null` or
`undefined` (the text of the message is that of V8). -/
def jobIdTypeError : JsVal :=
  JsVal.obj [("message", JsVal.str "Cannot read properties of null (reading 'job_id')")]

/-- The `catch` of `runBacktest` (lines 128-132). -/
def runBacktestCatch (s : State) (err : JsVal) : State :=
  let msg :=
    ((((err.getProp "response").getProp "data").getProp "detail").or (err.getProp "message")).or
      (JsVal.str "Unknown error")
  { s with error := msg, isRunning := false }

/-- The end of `runBacktest` (lines 113-132), given the outcome of the request:
`Except.ok data` when `axios.post` resolves with body `data`, `Except.error err`
when it rejects with `err`. Once a job id is set while the panel is running, the
poll effect starts its interval. -/
def runBacktestResponse (s : State) : Except JsVal JsVal → State
  | Except.error err => runBacktestCatch s err
  | Except.ok JsVal.undefined => runBacktestCatch s jobIdTypeError
  | Except.ok JsVal.null => runBacktestCatch s jobIdTypeError
  | Except.ok data =>
    if (data.getProp "job_id").truthy = true then
      { s with jobId := data.getProp "job_id", pollActive := s.isRunning }
    else s

/-- The ticks of the poll interval, one request outcome per tick; a tick runs
`poll` as long as the interval has not been cleared. -/
def pollLoop (s : State) (ticks : List (Option JsVal)) : State :=
  ticks.foldl (fun s r => if s.pollActive = true then poll s r else s) s

/-- The ordered phases of the phase dots (line 259). -/
def phaseOrder : List String :=
  ["converting", "downloading", "processing", "indicators", "risk", "backtesting", "results"]

/-- How a phase dot is drawn: `done` is the class `bg-emerald-500`, `current` the
class `bg-cyan-400 animate-pulse scale-125`, `pending` the class `bg-slate-700`. -/
inductive PhaseDot where
  | done
  | current
  | pending
  deriving DecidableEq

/-- The dot of `phase` when the job reports `progressPhase` (lines 259-271). -/
def phaseDot (progressPhase : JsVal) (phase : String) : PhaseDot :=
  let currentIdx := JsString.indexOf phaseOrder progressPhase
  let thisIdx := JsString.indexOf phaseOrder (JsVal.str phase)
  let isDone := decide (thisIdx < currentIdx)
  let isCurrent := decide (thisIdx = currentIdx)
  if isDone then PhaseDot.done else if isCurrent then PhaseDot.current else PhaseDot.pending

/-- The row of phase dots (lines 258-273): one dot per element of the mapped array,
each with its phase as title. -/
def phaseDots (progressPhase : JsVal) : List (String × PhaseDot) :=
  ["converting", "downloading", "processing", "indicators", "risk", "backtesting", "results"].map
    (fun phase => (phase, phaseDot progressPhase phase))

end BacktestPanel

/-! ## `ConfigEditor.jsx`: symbol list -/

namespace ConfigEditor

/-- The symbol list of `generateFromGraph` (line 190). -/
def symbolList (upper : Char → List Char) (symbols : String) : List String :=
  ((JsString.split ',' symbols).map
    (fun s => JsString.toUpperCase upper (JsString.trim s))).filter (fun s => decide (s ≠ ""))

end ConfigEditor

/-! ## `PipelineMonitor.jsx` -/

namespace PipelineMonitor

/-- The state of the monitor that the status poll, the control actions and the
gateway job poll read and write. `lastUpdate` is the time of `new Date()`, `none`
for `null`; `gatewayPollActive` tells whether the interval stored in
`gatewayPollRef.current` is running, `graceTimerPending` whether the two-second
timer of a finished launch script is pending. -/
structure State where
  status : JsVal
  lastUpdate : Option Nat
  actionLoading : JsVal
  actionMsg : JsVal
  gatewayJobId : JsVal
  gatewayStartMsg : JsVal
  gatewayPollActive : Bool
  graceTimerPending : Bool
  selectedConfig : JsVal
  dryRun : Bool
  deriving DecidableEq

/-- One run of `fetchStatus` (lines 74-82) at time `now`: `none` when the request
fails, `some data` when it resolves with body `data`. -/
def fetchStatus (s : State) (now : Nat) : Option JsVal → State
  | none => s
  | some data => { s with status := data, lastUpdate := some now }

/-- The function `showActionResult` (lines 117-120); the message is cleared by a
timer six seconds later. -/
def showActionResult (s : State) (type : String) (text : JsVal) : State :=
  { s with actionMsg := JsVal.obj [("type", JsVal.str type), ("text", text)] }

/-- One tick of the gateway job poll (lines 137-167): `none` when the request
fails, `some d` when it resolves with body `d`. Reading `d.gateway_running` from
`undefined` or `null` throws, and the `catch` swallows it. The calls of
`fetchStatus` are requests of their own. -/
def gatewayPoll (s : State) : Option JsVal → State
  | none => s
  | some JsVal.undefined => s
  | some JsVal.null => s
  | some d =>
    if (d.getProp "gateway_running").truthy = true then
      showActionResult
        { s with gatewayStartMsg := JsVal.null, gatewayJobId := JsVal.null,
                 gatewayPollActive := false }
        "success" (JsVal.str "Gateway is running")
    else if d.getProp "status" = JsVal.str "completed" then
      { s with
        gatewayStartMsg := (d.getProp "message").or (JsVal.str "Script finished")
        graceTimerPending := true
        gatewayPollActive := false }
    else if d.getProp "status" = JsVal.str "error" then
      showActionResult
        { s with gatewayStartMsg := JsVal.null, gatewayJobId := JsVal.null,
                 gatewayPollActive := false }
        "error" ((d.getProp "message").or (JsVal.str "Gateway start failed"))
    else
      { s with gatewayStartMsg := (d.getProp "message").or (JsVal.str "Starting gateway...") }

/-- The two-second timer set when the launch script has finished (lines 150-154). -/
def gatewayGraceTimeout (s : State) : State :=
  { s with gatewayStartMsg := JsVal.null, gatewayJobId := JsVal.null, graceTimerPending := false }

/-- The status tokens that `handleAction` presents as a success (lines 205-207). -/
def okStatuses : List JsVal :=
  [JsVal.str "started", JsVal.str "stopped", JsVal.str "authenticated",
    JsVal.str "already_running", JsVal.str "not_running", JsVal.str "launched"]

/-- The presentation of a response body by `handleAction` (lines 203-209). -/
def presentResponse (s : State) (data : JsVal) : State :=
  if data.truthy = true then
    let isOk :=
      decide (data.getProp "status" = JsVal.str "started") ||
      decide (data.getProp "status" = JsVal.str "stopped") ||
      decide (data.getProp "status" = JsVal.str "authenticated") ||
      decide (data.getProp "status" = JsVal.str "already_running") ||
      decide (data.getProp "status" = JsVal.str "not_running") ||
      decide (data.getProp "status" = JsVal.str "launched")
    showActionResult s (if isOk then "success" else "error")
      ((data.getProp "message").or (data.getProp "status"))
  else s

/-- The function `handleAction(action)` (lines 122-218), given the outcome of its
request: `Except.ok data` when `axios.post` resolves with body `data`,
`Except.error err` when it rejects with `err`. No request is made for
`pipeline-start` without a selected config, nor for an unknown action. The
refresh of status and logs one second later is a request of its own. -/
def handleAction (s : State) (action : String) (outcome : Except JsVal JsVal) : State :=
  let s := { s with actionLoading := JsVal.str action, actionMsg := JsVal.null }
  if action = "pipeline-start" ∧ s.selectedConfig.truthy = false then
    { showActionResult s "error" (JsVal.str "Select a config first") with
      actionLoading := JsVal.null }
  else if action ∉ ["gateway-start", "gateway-stop", "login", "pipeline-start", "pipeline-stop"]
  then { s with actionLoading := JsVal.null }
  else
    match outcome with
    | Except.error err =>
      let msg :=
        ((((err.getProp "response").getProp "data").getProp "detail").or
          (err.getProp "message")).or (JsVal.str "Action failed")
      { showActionResult s "error" msg with actionLoading := JsVal.null }
    | Except.ok data =>
      if action = "gateway-start" ∧ data.getProp "status" = JsVal.str "launched" ∧
          (data.getProp "job_id").truthy = true then
        { showActionResult
            { s with gatewayJobId := data.getProp "job_id"
                     gatewayStartMsg := JsVal.str "Starting gateway..." }
            "success" (JsVal.str "Gateway launch initiated") with
          gatewayPollActive := true
          actionLoading := JsVal.null }
      else if action = "gateway-start" ∧ data.getProp "status" = JsVal.str "already_running" then
        { showActionResult s "success"
            ((data.getProp "message").or (JsVal.str "Gateway already running")) with
          actionLoading := JsVal.null }
      else
        let s :=
          if action = "gateway-stop" then
            { s with gatewayPollActive := false, gatewayJobId := JsVal.null,
                     gatewayStartMsg := JsVal.null }
          else s
        { presentResponse s data with actionLoading := JsVal.null }

end PipelineMonitor

/-! ## Example states and responses -/

/-- The panel before any backtest has been run. -/
def idleState : BacktestPanel.State :=
  { isRunning := false
    results := JsVal.null
    error := JsVal.str ""
    showResults := false
    jobId := JsVal.null
    progress := JsVal.null
    pollActive := false }

/-- A progress response of a running job. -/
def runningResponse : JsVal :=
  JsVal.obj
    [ ("status", JsVal.str "running"), ("phase", JsVal.str "downloading"),
      ("progress", JsVal.num 20), ("message", JsVal.str "Downloading data"),
      ("elapsed", JsVal.num 3) ]

/-- A submission response that reports a refusal and carries no job id. -/
def noJobIdResponse : JsVal :=
  JsVal.obj [("status", JsVal.str "error"), ("message", JsVal.str "Engine busy")]

/-- The monitor as it is mounted. -/
def monitorState : PipelineMonitor.State :=
  { status := JsVal.null
    lastUpdate := none
    actionLoading := JsVal.null
    actionMsg := JsVal.null
    gatewayJobId := JsVal.null
    gatewayStartMsg := JsVal.null
    gatewayPollActive := false
    graceTimerPending := false
    selectedConfig := JsVal.str ""
    dryRun := true }

/-- The monitor while a gateway launch job is polled. -/
def gatewayLaunchingState : PipelineMonitor.State :=
  { monitorState with
    gatewayJobId := JsVal.str "abc-123"
    gatewayStartMsg := JsVal.str "Starting gateway..."
    gatewayPollActive := true }

/-- A gateway job poll payload that reports an error of the script while the
gateway is up. -/
def gatewayUpErrorPayload : JsVal :=
  JsVal.obj
    [ ("status", JsVal.str "error"), ("message", JsVal.str "Script exited with code 1"),
      ("gateway_running", JsVal.bool true), ("gateway_pid", JsVal.num 4321) ]

/-- A status response with the gateway up. -/
def gatewayUpStatus : JsVal :=
  JsVal.obj
    [ ("gateway", JsVal.obj [("running", JsVal.bool true), ("pid", JsVal.num 4321)]),
      ("authenticated", JsVal.bool true),
      ("pipeline", JsVal.obj [("running", JsVal.bool false), ("phase", JsVal.str "idle")]) ]

/-- The login response of the contract tests, with the status `connected`. -/
def loginConnectedResponse : JsVal :=
  JsVal.obj
    [ ("status", JsVal.str "connected"), ("authenticated", JsVal.bool true),
      ("message", JsVal.str "Connected to IBKR") ]

/-- A stop response with the status `stopped`. -/
def stoppedResponse : JsVal :=
  JsVal.obj [("status", JsVal.str "stopped"), ("message", JsVal.str "Gateway stopped")]

/-! ## `App.jsx`: compile and import -/

namespace JsString

/-- The method `s.startsWith(pre)`. -/
def startsWith (s pre : String) : Bool :=
  pre.toList.isPrefixOf s.toList

end JsString

namespace App

/-- The constant `BACKEND_URL` (line 44). -/
def BACKEND_URL : String :=
  "http://127.0.0.1:8010"

/-- The state that `compileStrategy` writes. -/
structure CompileState where
  generatedCode : JsVal
  isCompiling : Bool
  deriving DecidableEq

/-- The error thrown by reading `code` from a response body that is `null` or
`undefined` (the text of the message is that of V8). -/
def codeTypeError : JsVal :=
  JsVal.obj [("message", JsVal.str "Cannot read properties of null (reading 'code')")]

/-- The `errorMsg` of `compileStrategy` (line 320). -/
def errorMsg (error : JsVal) : JsVal :=
  ((((error.getProp "response").getProp "data").getProp "detail").or
    (error.getProp "message")).or (JsVal.str "Unknown error")

/-- The placeholder document of `compileStrategy` (line 321). -/
def placeholder (errorMsg : JsVal) : String :=
  "// Compilation Error:\n// " ++ errorMsg.toStr ++
    "\n\n// Make sure the backend is running at " ++ BACKEND_URL

/-- The state update at the start of `compileStrategy` (line 275). -/
def compileStrategyStart (s : CompileState) : CompileState :=
  { s with isCompiling := true }

/-- The end of `compileStrategy` (lines 312-324), given the outcome of the
request: `Except.ok data` when `axios.post` resolves with body `data`,
`Except.error error` when it rejects with `error`. -/
def compileStrategyResponse (s : CompileState) : Except JsVal JsVal → CompileState
  | Except.error error =>
    { s with generatedCode := JsVal.str (placeholder (errorMsg error)), isCompiling := false }
  | Except.ok JsVal.undefined =>
    { s with generatedCode := JsVal.str (placeholder (errorMsg codeTypeError))
             isCompiling := false }
  | Except.ok JsVal.null =>
    { s with generatedCode := JsVal.str (placeholder (errorMsg codeTypeError))
             isCompiling := false }
  | Except.ok data => { s with generatedCode := data.getProp "code", isCompiling := false }

/-- The editing state that `importStrategy` writes. -/
structure EditState where
  strategyName : JsVal
  nodes : List Node
  edges : List Edge
  deriving DecidableEq

/-- The value of `data.nodes` in an imported document: `missing` when it is falsy,
`array items` when it is an array, whose `null` elements are `none`, and
`notArray` for any other value, which has no method `map`. -/
inductive ImportNodes where
  | missing
  | array (items : List (Option Node))
  | notArray

/-- The content of an imported file: `unparseable` when `JSON.parse` throws,
`nullDocument` for the JSON text `null`, and else the document by its fields
`name`, `nodes` and `edges` (`none` for a falsy `edges`). -/
inductive ImportFile where
  | unparseable
  | nullDocument
  | document (name : JsVal) (nodes : ImportNodes) (edges : Option (List Edge))

/-- The callback of `(data.nodes || []).map` in `importStrategy` (lines 139-142). -/
def withCallback (node : Node) : Node :=
  { node with data := JsObj.set (JsObj.spread [] node.data) "onParameterChange"
                        onParameterChangeRef }

/-- The handler `reader.onload` of `importStrategy` (lines 133-149). The result
is the editing state and whether the alert "Error importing strategy: Invalid
JSON" has been shown. Reading `data.name` from `null` throws before any update;
a `nodes` value without `map`, or a `null` element of the array, throws after
`setStrategyName` has been called. -/
def importStrategy (s : EditState) : ImportFile → EditState × Bool
  | ImportFile.unparseable => (s, true)
  | ImportFile.nullDocument => (s, true)
  | ImportFile.document name nodes edges =>
    let s := { s with strategyName := name.or (JsVal.str "Imported Strategy") }
    match nodes with
    | ImportNodes.notArray => (s, true)
    | ImportNodes.missing => ({ s with nodes := [], edges := edges.getD [] }, false)
    | ImportNodes.array items =>
      if items.all Option.isSome then
        ({ s with nodes := items.filterMap (fun item => item.map withCallback)
                  edges := edges.getD [] }, false)
      else (s, true)

end App

/-! ## `ConfigEditor.jsx`: requests -/

namespace ConfigEditor

/-- The state of the config editor that its requests write. -/
structure State where
  activeConfig : JsVal
  yamlContent : JsVal
  originalYaml : JsVal
  isEditing : Bool
  isSaving : Bool
  saveStatus : JsVal
  loading : Bool
  error : JsVal
  showDeleteConfirm : JsVal
  view : String
  deriving DecidableEq

/-- The function `loadConfig` (lines 82-98), given the outcome of its request.
For a body that is `null` or `undefined`, reading `res.data.yaml` throws after
`setActiveConfig`, and the error thrown has no `response`. -/
def loadConfig (s : State) : Except JsVal JsVal → State
  | Except.error err =>
    { s with
      error := (((err.getProp "response").getProp "data").getProp "detail").or
        (JsVal.str "Failed to load config")
      loading := false }
  | Except.ok JsVal.undefined =>
    { s with activeConfig := JsVal.undefined, error := JsVal.str "Failed to load config"
             loading := false }
  | Except.ok JsVal.null =>
    { s with activeConfig := JsVal.null, error := JsVal.str "Failed to load config"
             loading := false }
  | Except.ok data =>
    { s with
      error := JsVal.str ""
      activeConfig := data
      yamlContent := data.getProp "yaml"
      originalYaml := data.getProp "yaml"
      isEditing := false
      saveStatus := JsVal.null
      view := "editor"
      loading := false }

/-- The function `saveConfig` (lines 100-119), given the outcome of its request;
without an active config it returns at once. -/
def saveConfig (s : State) (outcome : Except JsVal JsVal) : State :=
  if s.activeConfig.truthy = false then s
  else
    match outcome with
    | Except.error err =>
      { s with
        saveStatus := JsVal.str "error"
        error := (((err.getProp "response").getProp "data").getProp "detail").or
          (JsVal.str "Failed to save")
        isSaving := false }
    | Except.ok _ =>
      { s with
        originalYaml := s.yamlContent
        saveStatus := JsVal.str "saved"
        isEditing := false
        isSaving := false }

/-- The function `deleteConfig(name)` (lines 152-165), given the outcome of its
request. -/
def deleteConfig (s : State) (name : String) : Except JsVal JsVal → State
  | Except.error err =>
    { s with
      error := (((err.getProp "response").getProp "data").getProp "detail").or
        (JsVal.str "Failed to delete") }
  | Except.ok _ =>
    let s :=
      if s.activeConfig.getProp "name" = JsVal.str name then
        { s with activeConfig := JsVal.null, yamlContent := JsVal.str "", view := "list" }
      else s
    { s with showDeleteConfirm := JsVal.null }

/-- The state updates of `generateFromGraph` (lines 167-215), given the node list
and the outcome of its request; with at most one node no request is made. -/
def generateFromGraphResponse (s : State) (nodes : List Node) :
    Except JsVal JsVal → State :=
  fun outcome =>
    if nodes.length ≤ 1 then { s with error := JsVal.str "Build a strategy on the canvas first" }
    else
      match outcome with
      | Except.error err =>
        { s with
          error := (((err.getProp "response").getProp "data").getProp "detail").or
            (JsVal.str "Failed to generate YAML")
          loading := false }
      | Except.ok JsVal.undefined =>
        { s with error := JsVal.str "Failed to generate YAML", loading := false }
      | Except.ok JsVal.null =>
        { s with error := JsVal.str "Failed to generate YAML", loading := false }
      | Except.ok data =>
        { s with
          yamlContent := data.getProp "yaml"
          originalYaml := JsVal.str ""
          activeConfig :=
            JsVal.obj
              [ ("name", JsVal.str "(generated)"), ("type", JsVal.str "expression"),
                ("filename", JsVal.str "generated.yaml") ]
          isEditing := true
          view := "editor"
          loading := false }

end ConfigEditor

/-! ## `api-contracts.test.js`: node type mapping -/

namespace ApiContracts

/-- The function `mapNodeType` of the contract tests (lines 549-554). -/
def mapNodeType (frontendType : JsVal) : JsVal :=
  if frontendType = JsVal.str "indicatorNode" ∨ frontendType = JsVal.str "default"
      ∨ frontendType.truthy = false then JsVal.str "indicator"
  else if frontendType = JsVal.str "logicNode" then JsVal.str "logic"
  else if frontendType = JsVal.str "actionNode" then JsVal.str "action"
  else frontendType

end ApiContracts

/-! ## `BacktestResults.jsx`: chart data -/

namespace BacktestResults

/-- The `chartData` of `BacktestResults` (lines 99-103). `Math.ceil(length / 200)`
is the integer quotient rounded up. -/
def chartData (equityCurve : List JsVal) : List JsVal :=
  if equityCurve.length ≤ 200 then equityCurve
  else
    let step := (equityCurve.length + 199) / 200
    (equityCurve.enum.filter
      (fun p => p.1 % step == 0 || p.1 == equityCurve.length - 1)).map Prod.snd

end BacktestResults

/-! ## `BacktestPanel.jsx`: sessions and elapsed time -/

namespace BacktestPanel

/-- The panel together with whether a submission awaits its response and how
many poll requests have been sent and not yet settled. -/
structure Session where
  state : State
  awaiting : Bool
  inFlight : Nat
  deriving DecidableEq

/-- What can happen to the panel: the run button is pressed, the pending
submission settles (with a response or a failure), the poll interval fires and
sends a request, or a poll request that is in flight settles (with a response or
a failure). -/
inductive Event where
  | submit
  | settle (outcome : Except JsVal JsVal)
  | tick
  | pollSettle (r : Option JsVal)

/-- One event. The run button is disabled while the panel is running (line 210).
A submission settles only while one is pending, and when it starts the poll
effect the first poll request is sent at once (line 61). The interval fires only
until it is cleared. A poll request in flight settles whenever its answer
arrives: the awaited response is applied by `poll` with no check of the interval
or of the job id (lines 38-55). -/
def step (σ : Session) : Event → Session
  | Event.submit =>
    if σ.state.isRunning = false then
      { σ with state := runBacktestStart σ.state, awaiting := true }
    else σ
  | Event.settle outcome =>
    if σ.awaiting = true then
      { state := runBacktestResponse σ.state outcome
        awaiting := false
        inFlight :=
          if (runBacktestResponse σ.state outcome).pollActive = true then σ.inFlight + 1
          else σ.inFlight }
    else σ
  | Event.tick =>
    if σ.state.pollActive = true then { σ with inFlight := σ.inFlight + 1 } else σ
  | Event.pollSettle r =>
    if 0 < σ.inFlight then { σ with state := poll σ.state r, inFlight := σ.inFlight - 1 }
    else σ

/-- A sequence of events. -/
def run (σ : Session) (events : List Event) : Session :=
  events.foldl step σ

/-- The method `Math.round` on rationals: to the nearest integer, halves up. -/
def mathRound (x : ℚ) : Int :=
  ⌊x + 1 / 2⌋

/-- The operator `a % b` on rationals: the remainder of the division truncated
towards zero. -/
def jsMod (a b : ℚ) : ℚ :=
  a - b * (if 0 ≤ a / b then (⌊a / b⌋ : ℚ) else (⌈a / b⌉ : ℚ))

/-- The function `formatElapsed` (lines 138-142) on a number of seconds taken as
a rational. -/
def formatElapsed (secs : ℚ) : String :=
  if secs = 0 then "0s"
  else if secs < 60 then toString (mathRound secs) ++ "s"
  else toString ⌊secs / 60⌋ ++ "m " ++ toString (mathRound (jsMod secs 60)) ++ "s"

end BacktestPanel

/-! ## More examples -/

/-- The panel as it is mounted, with no submission pending. -/
def initialSession : BacktestPanel.Session :=
  { state := idleState, awaiting := false, inFlight := 0 }

/-- The compile state before a compile. -/
def compileIdle : App.CompileState :=
  { generatedCode := JsVal.str "", isCompiling := false }

/-- A rejection of the server with a detail of two lines. -/
def twoLineError : JsVal :=
  JsVal.obj
    [ ("message", JsVal.str "Request failed with status code 400"),
      ("response",
        JsVal.obj [("data", JsVal.obj [("detail", JsVal.str "Unknown indicator\nin node rsi-1")])]) ]

/-- A transport failure: no response, only the message of the error. -/
def networkError : JsVal :=
  JsVal.obj [("message", JsVal.str "Network Error")]

/-- A rejection of the server with a detail. -/
def detailError : JsVal :=
  JsVal.obj
    [ ("message", JsVal.str "Request failed with status code 404"),
      ("response", JsVal.obj [("data", JsVal.obj [("detail", JsVal.str "Config not found")])]) ]

/-- The config editor as it is mounted. -/
def configIdle : ConfigEditor.State :=
  { activeConfig := JsVal.null
    yamlContent := JsVal.str ""
    originalYaml := JsVal.str ""
    isEditing := false
    isSaving := false
    saveStatus := JsVal.null
    loading := false
    error := JsVal.str ""
    showDeleteConfirm := JsVal.null
    view := "list" }

/-- The config editor with the config "old" open. -/
def configOpen : ConfigEditor.State :=
  { configIdle with
    activeConfig := JsVal.obj [("name", JsVal.str "old"), ("yaml", JsVal.str "blocks: {}")]
    yamlContent := JsVal.str "blocks: {}"
    originalYaml := JsVal.str "blocks: {}"
    view := "editor" }

/-- The editing state of a fresh canvas. -/
def freshEdit : App.EditState :=
  { strategyName := JsVal.str "My Alpha Strategy", nodes := [startNode], edges := [] }

/-- The file content `{"name": "Broken", "nodes": 5}`. -/
def brokenFile : App.ImportFile :=
  App.ImportFile.document (JsVal.str "Broken") App.ImportNodes.notArray none

/-- An equity curve of 400 points. -/
def curve400 : List JsVal :=
  (List.range 400).map (fun i => JsVal.obj [("equity", JsVal.num (10000 + i))])

/-- A buy node as `addActionNode` creates it. -/
def buyNodeExample : Node :=
  { id := "action-7"
    type := JsVal.str "actionNode"
    data :=
      [ ("actionType", JsVal.str "buy"),
        ("parameters",
          JsVal.obj [("actionType", JsVal.str "buy"), ("stopLoss", JsVal.str ""),
            ("takeProfit", JsVal.str "")]),
        ("onParameterChange", onParameterChangeRef) ]
    position := JsVal.obj [("x", JsVal.num 600), ("y", JsVal.num 300)] }

/-- A submission response with a job id. -/
def jobIdResponse : JsVal :=
  JsVal.obj [("job_id", JsVal.str "job-1")]

/-- An indicator node of an imported file that stores no position. -/
def unplacedNode : Node :=
  { id := "rsi-1"
    type := JsVal.str "indicatorNode"
    data := [("parameters", JsVal.obj [("period", JsVal.str "14")])]
    position := JsVal.undefined }

/-- A status response with the gateway down. -/
def gatewayDownStatus : JsVal :=
  JsVal.obj
    [ ("gateway", JsVal.obj [("running", JsVal.bool false), ("pid", JsVal.null)]),
      ("authenticated", JsVal.bool false),
      ("pipeline", JsVal.obj [("running", JsVal.bool false), ("phase", JsVal.str "idle")]) ]

/-- A submission response with the job id of a second job. -/
def secondJobIdResponse : JsVal :=
  JsVal.obj [("job_id", JsVal.str "job-2")]

/-- A run in which a poll response arrives late. The first job is submitted and
polled twice (the first request at once, the second by the interval); the first
answer reports an error and ends the job; the run button is pressed again; the
second answer of the first job, an error as well, arrives before the response
of the new submission; then that response arrives with the id of the second
job. -/
def lateResponseRun : List BacktestPanel.Event :=
  [ BacktestPanel.Event.submit,
    BacktestPanel.Event.settle (Except.ok jobIdResponse),
    BacktestPanel.Event.tick,
    BacktestPanel.Event.pollSettle (some errorResponse),
    BacktestPanel.Event.submit,
    BacktestPanel.Event.pollSettle (some errorResponse),
    BacktestPanel.Event.settle (Except.ok secondJobIdResponse) ]

end StrategyBuilder

/-! ## Lemmas on objects -/

namespace StrategyBuilder

namespace JsObj

theorem get?_cons (k k' : String) (v : JsVal) (rest : JsObj) :
    get? k ((k', v) :: rest) = (get? k rest).or (if k' = k then some v else none) := by
  simp only [get?]
  cases get? k rest <;> simp

theorem get?_append (k : String) (a b : JsObj) :
    get? k (a ++ b) = (get? k b).or (get? k a) := by
  induction a with
  | nil => simp [get?]
  | cons p rest ih =>
    obtain ⟨k', v⟩ := p
    rw [List.cons_append, get?_cons, get?_cons, ih]
    cases get? k b <;> simp

theorem get?_eq_none_of_has_eq_false (o : JsObj) (k : String) (h : o.has k = false) :
    get? k o = none := by
  induction o with
  | nil => rfl
  | cons p rest ih =>
    obtain ⟨k', v⟩ := p
    simp only [has, List.any_cons, Bool.or_eq_false_iff, decide_eq_false_iff_not] at h
    rw [get?_cons, ih (by simpa [has] using h.2)]
    simp [h.1]

theorem get?_isSome (o : JsObj) (k : String) : (get? k o).isSome = o.has k := by
  induction o with
  | nil => rfl
  | cons p rest ih =>
    obtain ⟨k', v⟩ := p
    rw [get?_cons]
    simp only [has, List.any_cons] at ih ⊢
    rw [← ih]
    by_cases hk : k' = k <;> cases get? k rest <;> simp [hk]

theorem get?_mem (o : JsObj) (k : String) (v : JsVal) (h : get? k o = some v) :
    (k, v) ∈ o := by
  induction o with
  | nil => simp [get?] at h
  | cons p rest ih =>
    obtain ⟨k', w⟩ := p
    rw [get?_cons, Option.or_eq_some] at h
    rcases h with h | ⟨_, h⟩
    · exact List.mem_cons_of_mem _ (ih h)
    · by_cases hk : k' = k
      · simp only [hk, if_true, Option.some.injEq] at h
        simp [hk, h]
      · simp [hk] at h

theorem get?_map_set (o : JsObj) (k k' : String) (v : JsVal) :
    get? k' (o.map (fun p => if p.1 = k then (k, v) else p)) =
      if k' = k then (if o.has k then some v else none) else get? k' o := by
  induction o with
  | nil => simp [get?, has]
  | cons p rest ih =>
    obtain ⟨a, b⟩ := p
    rw [List.map_cons, get?_cons]
    simp only [has, List.any_cons] at ih ⊢
    rw [ih]
    by_cases hk : k' = k
    · subst hk
      by_cases ha : a = k'
      · subst ha
        by_cases hr : rest.any (fun p => decide (p.1 = a)) = true <;> simp [hr]
      · by_cases hr : rest.any (fun p => decide (p.1 = k')) = true <;> simp [ha, hr]
    · by_cases ha : a = k
      · subst ha
        have hne : ¬ a = k' := fun e => hk e.symm
        simp [hk, hne, get?_cons]
      · simp [hk, ha, get?_cons]

/-- Reading a property after an assignment. -/
theorem get?_set (o : JsObj) (k k' : String) (v : JsVal) :
    get? k' (set o k v) = if k' = k then some v else get? k' o := by
  unfold set
  by_cases hh : o.has k = true
  · rw [if_pos hh, get?_map_set, if_pos hh]
  · have hf : o.has k = false := by simpa using hh
    rw [if_neg hh, get?_append]
    by_cases hk : k' = k
    · subst hk
      simp [get?]
    · have hne : ¬ k = k' := fun e => hk e.symm
      simp [get?, hk, hne]

/-- Reading a property of a spread: the source wins over the target. -/
theorem get?_spread (target : JsObj) (src : List (String × JsVal)) (k : String) :
    get? k (spread target src) = (get? k src).or (get? k target) := by
  induction src generalizing target with
  | nil => simp [spread, get?]
  | cons p rest ih =>
    obtain ⟨a, b⟩ := p
    have hstep : spread target ((a, b) :: rest) = spread (set target a b) rest := rfl
    rw [hstep, ih, get?_set, get?_cons]
    by_cases hk : k = a
    · subst hk
      cases get? k rest <;> simp
    · have hne : ¬ a = k := fun e => hk e.symm
      cases get? k rest <;> simp [hk, hne]

/-- Reading a property after a deletion. -/
theorem get?_delete (o : JsObj) (k k' : String) :
    get? k' (delete o k) = if k' = k then none else get? k' o := by
  induction o with
  | nil => simp [delete, get?]
  | cons p rest ih =>
    obtain ⟨a, b⟩ := p
    unfold delete at ih ⊢
    by_cases ha : a = k
    · subst ha
      rw [List.filter_cons_of_neg (by simp), ih, get?_cons]
      by_cases hk : k' = a
      · simp [hk]
      · have hne : ¬ a = k' := fun e => hk e.symm
        simp [hk, hne]
    · rw [List.filter_cons_of_pos (by simpa using ha), get?_cons, ih, get?_cons]
      by_cases hk : k' = k
      · subst hk
        simp [ha]
      · simp [hk]

theorem has_delete_self (o : JsObj) (k : String) : (delete o k).has k = false := by
  rw [← get?_isSome, get?_delete]
  simp

theorem has_delete_of_has_eq_false (o : JsObj) (k k' : String) (h : o.has k' = false) :
    (delete o k).has k' = false := by
  rw [← get?_isSome, get?_delete, get?_eq_none_of_has_eq_false o k' h]
  simp

end JsObj

end StrategyBuilder

/-! ## Graph normalization -/

namespace StrategyBuilder

/-- C1: in the normalization of `runBacktest` the type of the normalized node is
"indicator" when the node kind is "indicatorNode", "default", `undefined`, `null`
or the empty string, "logic" when it is "logicNode", "action" when it is
"actionNode", and the kind string itself for every other kind string; hence each
of the six kinds "input", "indicatorNode", "logicNode", "actionNode", `undefined`
and "default" yields one of the four canonical types. -/
theorem BacktestPanel.nodeType_resolution (node : Node) :
    ((node.type = JsVal.str "indicatorNode" ∨ node.type = JsVal.str "default" ∨
        node.type = JsVal.undefined ∨ node.type = JsVal.null ∨ node.type = JsVal.str "") →
      (BacktestPanel.normalizeNode node).type = JsVal.str "indicator") ∧
    (node.type = JsVal.str "logicNode" →
      (BacktestPanel.normalizeNode node).type = JsVal.str "logic") ∧
    (node.type = JsVal.str "actionNode" →
      (BacktestPanel.normalizeNode node).type = JsVal.str "action") ∧
    (∀ s : String, node.type = JsVal.str s → s ≠ "indicatorNode" → s ≠ "default" → s ≠ "" →
      s ≠ "logicNode" → s ≠ "actionNode" →
      (BacktestPanel.normalizeNode node).type = JsVal.str s) ∧
    (node.type ∈ [JsVal.str "input", JsVal.str "indicatorNode", JsVal.str "logicNode",
        JsVal.str "actionNode", JsVal.undefined, JsVal.str "default"] →
      (BacktestPanel.normalizeNode node).type ∈ canonicalTypes) := by
  obtain ⟨id, t, data, pos⟩ := node
  simp only [BacktestPanel.normalizeNode, BacktestPanel.nodeType]
  refine ⟨?_, ?_, ?_, ?_, ?_⟩
  · rintro (h | h | h | h | h) <;> subst h <;> rfl
  · intro h
    subst h
    rfl
  · intro h
    subst h
    rfl
  · intro s h h1 h2 h3 h4 h5
    subst h
    simp [JsVal.or, JsVal.truthy, h1, h2, h3, h4, h5]
  · intro h
    simp only [List.mem_cons, List.mem_singleton, List.not_mem_nil, or_false] at h
    rcases h with h | h | h | h | h | h <;> subst h <;> simp [canonicalTypes, JsVal.or, JsVal.truthy]

/-- The start node of the canvas, of kind "input", keeps the type "input". -/
theorem BacktestPanel.nodeType_resolution_witness :
    (BacktestPanel.normalizeNode startNode).type = JsVal.str "input" :=
  (BacktestPanel.nodeType_resolution startNode).2.2.2.1 "input" rfl
    (by decide) (by decide) (by decide) (by decide) (by decide)

/-- C2, as stated, fails: a node of the React Flow kind "output" is normalized by
`runBacktest` and by `compileStrategy` to the type "output", which is none of the
four canonical types. -/
theorem normalizeNode_type_not_canonical :
    (BacktestPanel.normalizeNode outputNode).type ∉ canonicalTypes ∧
    (App.normalizeNode outputNode).type ∉ canonicalTypes := by
  decide

/-- C2, amended: the type of the normalized node, in `runBacktest` and in
`compileStrategy`, is one of the four canonical types exactly when the node kind
is falsy (missing) or is one of "indicatorNode", "default", "logicNode",
"actionNode", "input", "indicator", "logic", "action". -/
theorem normalizeNode_type_canonical_iff (node : Node) :
    ((BacktestPanel.normalizeNode node).type ∈ canonicalTypes ↔
      (node.type.truthy = false ∨
        node.type ∈ [JsVal.str "indicatorNode", JsVal.str "default", JsVal.str "logicNode",
          JsVal.str "actionNode", JsVal.str "input", JsVal.str "indicator", JsVal.str "logic",
          JsVal.str "action"])) ∧
    ((App.normalizeNode node).type ∈ canonicalTypes ↔
      (node.type.truthy = false ∨
        node.type ∈ [JsVal.str "indicatorNode", JsVal.str "default", JsVal.str "logicNode",
          JsVal.str "actionNode", JsVal.str "input", JsVal.str "indicator", JsVal.str "logic",
          JsVal.str "action"])) := by
  obtain ⟨id, t, data, pos⟩ := node
  simp only [BacktestPanel.normalizeNode, BacktestPanel.nodeType, App.normalizeNode, App.nodeType,
    and_self]
  cases t with
  | undefined => simp [canonicalTypes, JsVal.or, JsVal.truthy]
  | null => simp [canonicalTypes, JsVal.or, JsVal.truthy]
  | bool b => cases b <;> simp [canonicalTypes, JsVal.or, JsVal.truthy]
  | num n => by_cases hn : n = 0 <;> simp [canonicalTypes, JsVal.or, JsVal.truthy, hn]
  | fn src => simp [canonicalTypes, JsVal.or, JsVal.truthy]
  | obj ps => simp [canonicalTypes, JsVal.or, JsVal.truthy]
  | str s =>
    by_cases h1 : s = "indicatorNode"
    · subst h1; decide
    by_cases h2 : s = "default"
    · subst h2; decide
    by_cases h3 : s = "logicNode"
    · subst h3; decide
    by_cases h4 : s = "actionNode"
    · subst h4; decide
    by_cases h5 : s = ""
    · subst h5; decide
    simp [canonicalTypes, JsVal.or, JsVal.truthy, h1, h2, h3, h4, h5]

/-- Reading a key of the parameter set built by `runBacktest`. -/
theorem BacktestPanel.get?_params (node : Node) (k : String) :
    JsObj.get? k (BacktestPanel.params node) =
      if k = "label" ∨ k = "onParameterChange" then none
      else (JsObj.get? k (nestedParameters node)).or (JsObj.get? k node.data) := by
  simp only [BacktestPanel.params]
  rw [JsObj.get?_delete, JsObj.get?_delete, JsObj.get?_spread, JsObj.get?_spread]
  by_cases h1 : k = "label"
  · simp [h1]
  · by_cases h2 : k = "onParameterChange"
    · simp [h2]
    · simp [h1, h2, JsObj.get?]

/-- C3: for a key other than "onParameterChange" and "label", the parameter set
built by `runBacktest` maps a key of the nested `parameters` to its nested value,
whatever the top-level data holds for it, and a key that the nested `parameters`
do not have to what the top-level data holds for it. -/
theorem BacktestPanel.params_precedence (node : Node) (k : String)
    (hcb : k ≠ "onParameterChange") (hlabel : k ≠ "label") :
    (∀ v, JsObj.get? k (nestedParameters node) = some v →
      JsObj.get? k (BacktestPanel.normalizeNode node).parameters = some v) ∧
    (JsObj.get? k (nestedParameters node) = none →
      JsObj.get? k (BacktestPanel.normalizeNode node).parameters = JsObj.get? k node.data) := by
  have hget : JsObj.get? k (BacktestPanel.normalizeNode node).parameters =
      (JsObj.get? k (nestedParameters node)).or (JsObj.get? k node.data) := by
    simp only [BacktestPanel.normalizeNode]
    rw [BacktestPanel.get?_params, if_neg (by simp [hcb, hlabel])]
  constructor
  · intro v hv
    rw [hget, hv]
    rfl
  · intro hnone
    rw [hget, hnone]
    rfl

/-- A top-level `stopLoss` of "1" with a nested `stopLoss` of "2" is normalized to
`stopLoss` "2". -/
theorem BacktestPanel.params_precedence_witness :
    JsObj.get? "stopLoss" (BacktestPanel.normalizeNode actionNodeExample).parameters =
      some (JsVal.str "2") :=
  (BacktestPanel.params_precedence actionNodeExample "stopLoss" (by decide) (by decide)).1
    (JsVal.str "2") (by decide)

/-- C4: the parameter set built by `runBacktest` has neither the key
"onParameterChange" nor the key "label", wherever the node carried them. -/
theorem BacktestPanel.params_excludes_callback_and_label (node : Node) :
    (BacktestPanel.normalizeNode node).parameters.has "onParameterChange" = false ∧
    (BacktestPanel.normalizeNode node).parameters.has "label" = false ∧
    "onParameterChange" ∉ (BacktestPanel.normalizeNode node).parameters.keys ∧
    "label" ∉ (BacktestPanel.normalizeNode node).parameters.keys := by
  have h1 : (BacktestPanel.normalizeNode node).parameters.has "onParameterChange" = false := by
    simp only [BacktestPanel.normalizeNode, BacktestPanel.params]
    exact JsObj.has_delete_of_has_eq_false _ _ _ (JsObj.has_delete_self _ _)
  have h2 : (BacktestPanel.normalizeNode node).parameters.has "label" = false := by
    simp only [BacktestPanel.normalizeNode, BacktestPanel.params]
    exact JsObj.has_delete_self _ _
  refine ⟨h1, h2, ?_, ?_⟩
  · intro hmem
    simp only [JsObj.keys, List.mem_map] at hmem
    obtain ⟨p, hp, hk⟩ := hmem
    simp only [JsObj.has, List.any_eq_false] at h1
    exact h1 p hp (by simpa using hk)
  · intro hmem
    simp only [JsObj.keys, List.mem_map] at hmem
    obtain ⟨p, hp, hk⟩ := hmem
    simp only [JsObj.has, List.any_eq_false] at h2
    exact h2 p hp (by simpa using hk)

/-- The type resolutions of `compileStrategy` and `runBacktest` agree. -/
theorem App.nodeType_compile_eq_backtest (node : Node) :
    App.nodeType node = BacktestPanel.nodeType node :=
  rfl

/-- The name resolutions of `compileStrategy` and `runBacktest` agree. -/
theorem App.nodeName_compile_eq_backtest (node : Node) :
    App.nodeName node = BacktestPanel.nodeName node :=
  rfl

/-- The type resolution of `generateFromGraph` agrees with that of `runBacktest`:
for a falsy kind the initial `node.type || 'indicator'` already gives
"indicator". -/
theorem ConfigEditor.nodeType_generate_eq_backtest (node : Node) :
    ConfigEditor.nodeType node = BacktestPanel.nodeType node := by
  obtain ⟨id, t, data, pos⟩ := node
  simp only [ConfigEditor.nodeType, BacktestPanel.nodeType]
  by_cases ht : t.truthy = false
  · have h1 : t ≠ JsVal.str "indicatorNode" := by rintro rfl; simp [JsVal.truthy] at ht
    have h2 : t ≠ JsVal.str "default" := by rintro rfl; simp [JsVal.truthy] at ht
    simp [JsVal.or, ht, h1, h2]
  · simp [ht]

/-- The three call sites copy an edge in the same way. -/
theorem connection_eq_backtest (edge : Edge) :
    App.connection edge = BacktestPanel.connection edge ∧
    ConfigEditor.connection edge = BacktestPanel.connection edge :=
  ⟨rfl, rfl⟩

/-- The parameter set of `runBacktest` is that of `compileStrategy` without the
keys "onParameterChange" and "label". -/
theorem BacktestPanel.params_eq_compile_delete (node : Node) :
    BacktestPanel.params node =
      ((App.params node).delete "onParameterChange").delete "label" :=
  rfl

/-- For a key other than "onParameterChange" and "label", the parameter sets of
`compileStrategy` and `runBacktest` hold the same. -/
theorem App.get?_params_compile_eq_backtest (node : Node) (k : String)
    (hcb : k ≠ "onParameterChange") (hlabel : k ≠ "label") :
    JsObj.get? k (App.params node) = JsObj.get? k (BacktestPanel.params node) := by
  rw [BacktestPanel.params_eq_compile_delete, JsObj.get?_delete, JsObj.get?_delete,
    if_neg hlabel, if_neg hcb]

/-- Reading a key of the data sent by `generateFromGraph`. -/
theorem ConfigEditor.get?_mappedNode_data (node : Node) (k : String) :
    JsObj.get? k (ConfigEditor.mappedNode node).data =
      if k = "onParameterChange" then none else JsObj.get? k node.data := by
  simp only [ConfigEditor.mappedNode]
  rw [JsObj.get?_delete, JsObj.get?_spread]
  simp [JsObj.get?]

/-- C5, as stated, fails. For the graph that holds only the start node,
`compileStrategy` keeps the key "label" in the parameters of the node and
`runBacktest` removes it, so the two node lists differ, and `generateFromGraph`
builds no request at all. For a node that stores no position, `compileStrategy`
sends the missing position and `runBacktest` sends the origin. For a created
node, `compileStrategy` keeps the callback in the parameters and `runBacktest`
removes it; and the data that `generateFromGraph` sends for it does not hold the
nested parameter "operator" at the top level, as the parameters of `runBacktest`
do. -/
theorem normalization_call_sites_differ :
    (App.strategy (JsVal.str "My Alpha Strategy") (JsVal.str "pinescript") [startNode] []).nodes ≠
      (BacktestPanel.strategy (JsVal.str "My Alpha Strategy") [startNode] []).nodes ∧
    JsObj.get? "label" (App.normalizeNode startNode).parameters =
      some (JsVal.str "Strategy Start") ∧
    JsObj.get? "label" (BacktestPanel.normalizeNode startNode).parameters = none ∧
    ConfigEditor.generateFromGraph [startNode] [] =
      Except.error "Build a strategy on the canvas first" ∧
    (App.normalizeNode unplacedNode).position = JsVal.undefined ∧
    (BacktestPanel.normalizeNode unplacedNode).position =
      JsVal.obj [("x", JsVal.num 0), ("y", JsVal.num 0)] ∧
    JsObj.get? "onParameterChange" (App.normalizeNode logicNodeExample).parameters =
      some onParameterChangeRef ∧
    JsObj.get? "onParameterChange" (BacktestPanel.normalizeNode logicNodeExample).parameters =
      none ∧
    JsObj.get? "operator" (BacktestPanel.normalizeNode logicNodeExample).parameters =
      some (JsVal.str "crossunder") ∧
    JsObj.get? "operator" (ConfigEditor.mappedNode logicNodeExample).data = none := by
  refine ⟨by decide, by decide, by decide, rfl, by decide, by decide, by decide, by decide,
    by decide, by decide⟩

/-- C5, amended. `compileStrategy` and `runBacktest` build the same connections
and, node for node, the same id, type and name; the parameter set of
`runBacktest` is that of `compileStrategy` without the keys "onParameterChange"
and "label", so the two hold the same for every other key; the position of
`runBacktest` is that of `compileStrategy` with the origin in place of a missing
one, so the two are equal for a node that has a position. `generateFromGraph`
builds a request exactly when the graph has more than one node; the request then
holds the same connections and, node for node, the same id and type, and the
data of the node without the callback. -/
theorem normalization_call_sites_agree (strategyName selectedPlatform : JsVal)
    (nodes : List Node) (edges : List Edge) :
    (App.strategy strategyName selectedPlatform nodes edges).connections =
      (BacktestPanel.strategy strategyName nodes edges).connections ∧
    (App.strategy strategyName selectedPlatform nodes edges).nodes.map (fun n => n.id) =
      (BacktestPanel.strategy strategyName nodes edges).nodes.map (fun n => n.id) ∧
    (App.strategy strategyName selectedPlatform nodes edges).nodes.map (fun n => n.type) =
      (BacktestPanel.strategy strategyName nodes edges).nodes.map (fun n => n.type) ∧
    (App.strategy strategyName selectedPlatform nodes edges).nodes.map (fun n => n.name) =
      (BacktestPanel.strategy strategyName nodes edges).nodes.map (fun n => n.name) ∧
    (∀ (i : Nat) (node : Node), nodes[i]? = some node →
      ∃ c b : NormalizedNode,
        (App.strategy strategyName selectedPlatform nodes edges).nodes[i]? = some c ∧
        (BacktestPanel.strategy strategyName nodes edges).nodes[i]? = some b ∧
        c.id = b.id ∧ c.type = b.type ∧ c.name = b.name ∧
        b.parameters = (c.parameters.delete "onParameterChange").delete "label" ∧
        (∀ k : String, k ≠ "onParameterChange" → k ≠ "label" →
          JsObj.get? k c.parameters = JsObj.get? k b.parameters) ∧
        b.parameters.has "onParameterChange" = false ∧
        b.parameters.has "label" = false ∧
        c.position = node.position ∧
        b.position = c.position.or (JsVal.obj [("x", JsVal.num 0), ("y", JsVal.num 0)]) ∧
        (node.position.truthy = true → c.position = b.position)) ∧
    ((∃ g, ConfigEditor.generateFromGraph nodes edges = Except.ok g) ↔ 1 < nodes.length) ∧
    (nodes.length ≤ 1 →
      ConfigEditor.generateFromGraph nodes edges =
        Except.error "Build a strategy on the canvas first") ∧
    (∀ g, ConfigEditor.generateFromGraph nodes edges = Except.ok g →
      g.2 = (BacktestPanel.strategy strategyName nodes edges).connections ∧
      g.1.map (fun n => n.id) =
        (BacktestPanel.strategy strategyName nodes edges).nodes.map (fun n => n.id) ∧
      g.1.map (fun n => n.type) =
        (BacktestPanel.strategy strategyName nodes edges).nodes.map (fun n => n.type) ∧
      (∀ (i : Nat) (node : Node), nodes[i]? = some node →
        ∃ m : MappedNode, g.1[i]? = some m ∧
          m.data.has "onParameterChange" = false ∧
          (∀ k : String, k ≠ "onParameterChange" →
            JsObj.get? k m.data = JsObj.get? k node.data))) := by
  refine ⟨rfl, ?_, ?_, ?_, ?_, ?_, ?_, ?_⟩
  · simp [App.strategy, BacktestPanel.strategy, App.normalizeNode, BacktestPanel.normalizeNode]
  · simp [App.strategy, BacktestPanel.strategy, App.normalizeNode, BacktestPanel.normalizeNode,
      App.nodeType_compile_eq_backtest]
  · simp [App.strategy, BacktestPanel.strategy, App.normalizeNode, BacktestPanel.normalizeNode,
      App.nodeName_compile_eq_backtest]
  · intro i node hnode
    refine ⟨App.normalizeNode node, BacktestPanel.normalizeNode node, ?_, ?_, rfl, rfl, rfl,
      rfl, ?_, ?_, ?_, rfl, rfl, ?_⟩
    · simp [App.strategy, List.getElem?_map, hnode]
    · simp [BacktestPanel.strategy, List.getElem?_map, hnode]
    · intro k hcb hlabel
      exact App.get?_params_compile_eq_backtest node k hcb hlabel
    · simp only [BacktestPanel.normalizeNode, BacktestPanel.params]
      exact JsObj.has_delete_of_has_eq_false _ _ _ (JsObj.has_delete_self _ _)
    · simp only [BacktestPanel.normalizeNode, BacktestPanel.params]
      exact JsObj.has_delete_self _ _
    · intro hpos
      simp [App.normalizeNode, BacktestPanel.normalizeNode, JsVal.or, hpos]
  · unfold ConfigEditor.generateFromGraph
    constructor
    · rintro ⟨g, hg⟩
      split at hg
      · cases hg
      · omega
    · intro h
      rw [if_neg (by omega)]
      exact ⟨_, rfl⟩
  · intro h
    unfold ConfigEditor.generateFromGraph
    rw [if_pos h]
  · intro g hg
    unfold ConfigEditor.generateFromGraph at hg
    split at hg
    · cases hg
    · cases hg
      refine ⟨rfl, ?_, ?_, ?_⟩
      · simp [BacktestPanel.strategy, ConfigEditor.mappedNode, BacktestPanel.normalizeNode]
      · simp [BacktestPanel.strategy, ConfigEditor.mappedNode, BacktestPanel.normalizeNode,
          ConfigEditor.nodeType_generate_eq_backtest]
      · intro i node hnode
        refine ⟨ConfigEditor.mappedNode node, ?_, ?_, ?_⟩
        · simp [List.getElem?_map, hnode]
        · simp only [ConfigEditor.mappedNode]
          exact JsObj.has_delete_self _ _
        · intro k hk
          rw [ConfigEditor.get?_mappedNode_data, if_neg hk]

/-- For the start node followed by a logic node, with one edge: the backtest
parameters of the logic node are the compile parameters without the callback,
the positions are equal, and `generateFromGraph` builds a request whose
connections are those of `runBacktest` and whose second node holds the nested
parameters of the logic node. -/
theorem normalization_call_sites_agree_witness :
    (∃ c b : NormalizedNode,
      (App.strategy (JsVal.str "My Alpha Strategy") (JsVal.str "pinescript")
        [startNode, logicNodeExample] [danglingEdge]).nodes[1]? = some c ∧
      (BacktestPanel.strategy (JsVal.str "My Alpha Strategy") [startNode, logicNodeExample]
        [danglingEdge]).nodes[1]? = some b ∧
      JsObj.get? "operator" c.parameters = JsObj.get? "operator" b.parameters ∧
      c.position = b.position) ∧
    ConfigEditor.generateFromGraph [startNode, logicNodeExample] [danglingEdge] =
        Except.ok ([startNode, logicNodeExample].map ConfigEditor.mappedNode,
          [danglingEdge].map ConfigEditor.connection) ∧
    [danglingEdge].map ConfigEditor.connection =
      (BacktestPanel.strategy (JsVal.str "My Alpha Strategy") [startNode, logicNodeExample]
        [danglingEdge]).connections ∧
    (∃ m : MappedNode,
      ([startNode, logicNodeExample].map ConfigEditor.mappedNode)[1]? = some m ∧
      JsObj.get? "parameters" m.data = JsObj.get? "parameters" logicNodeExample.data) :=
  ⟨(((normalization_call_sites_agree (JsVal.str "My Alpha Strategy") (JsVal.str "pinescript")
      [startNode, logicNodeExample] [danglingEdge]).2.2.2.2.1 1 logicNodeExample rfl).imp
      (fun _ hc => hc.imp
        (fun _ h => ⟨h.1, h.2.1, h.2.2.2.2.2.2.1 "operator" (by decide) (by decide),
          h.2.2.2.2.2.2.2.2.2.2.2 (by decide)⟩))),
    rfl,
    ((normalization_call_sites_agree (JsVal.str "My Alpha Strategy") (JsVal.str "pinescript")
      [startNode, logicNodeExample] [danglingEdge]).2.2.2.2.2.2.2 _ rfl).1,
    (((normalization_call_sites_agree (JsVal.str "My Alpha Strategy") (JsVal.str "pinescript")
      [startNode, logicNodeExample] [danglingEdge]).2.2.2.2.2.2.2 _ rfl).2.2.2 1
        logicNodeExample rfl).imp
      (fun _ h => ⟨h.1, h.2.2 "parameters" (by decide)⟩)⟩

/-- C6, as stated, fails: the nested parameters of a node made by `addLogicNode`
are strings, and its data holds nothing else but the callback, yet the parameter
set built by `runBacktest` maps the key "parameters" to the nested mapping, which
is neither a string nor a number. -/
theorem BacktestPanel.params_not_flat :
    (∀ k v, JsObj.get? k (nestedParameters logicNodeExample) = some v → v.isStrOrNum = true) ∧
    (∀ k v, k ≠ "parameters" → k ≠ "onParameterChange" →
      JsObj.get? k logicNodeExample.data = some v → v.isStrOrNum = true) ∧
    JsObj.get? "parameters" (BacktestPanel.normalizeNode logicNodeExample).parameters =
      some (JsVal.obj [("operator", JsVal.str "crossunder"), ("value", JsVal.str "")]) ∧
    (JsVal.obj [("operator", JsVal.str "crossunder"), ("value", JsVal.str "")]).isStrOrNum =
      false := by
  refine ⟨?_, ?_, by decide, rfl⟩
  · intro k v h
    have hmem := JsObj.get?_mem _ _ _ h
    have hall : ∀ p ∈ nestedParameters logicNodeExample, p.2.isStrOrNum = true := by decide
    exact hall _ hmem
  · intro k v h1 h2 h
    have hmem := JsObj.get?_mem _ _ _ h
    have hall : ∀ p ∈ logicNodeExample.data,
        p.1 = "parameters" ∨ p.1 = "onParameterChange" ∨ p.2.isStrOrNum = true := by decide
    rcases hall _ hmem with h3 | h3 | h3
    · exact absurd h3 h1
    · exact absurd h3 h2
    · exact h3

/-- C6, amended: when the nested parameters and the top-level data other than
"parameters", "onParameterChange" and "label" hold only strings and numbers,
every value of the parameter set built by `runBacktest` under a key other than
"parameters" is a string or a number; the key "parameters" itself is kept with
its top-level value (the nested mapping) unless the nested mapping overrides
it. -/
theorem BacktestPanel.params_flat_except_parameters (node : Node)
    (hnested : ∀ k v, JsObj.get? k (nestedParameters node) = some v → v.isStrOrNum = true)
    (htop : ∀ k v, k ≠ "parameters" → k ≠ "onParameterChange" → k ≠ "label" →
      JsObj.get? k node.data = some v → v.isStrOrNum = true) :
    (∀ k v, k ≠ "parameters" →
      JsObj.get? k (BacktestPanel.normalizeNode node).parameters = some v →
      v.isStrOrNum = true) ∧
    (JsObj.get? "parameters" (nestedParameters node) = none →
      JsObj.get? "parameters" (BacktestPanel.normalizeNode node).parameters =
        JsObj.get? "parameters" node.data) := by
  constructor
  · intro k v hk h
    simp only [BacktestPanel.normalizeNode] at h
    rw [BacktestPanel.get?_params] at h
    by_cases hex : k = "label" ∨ k = "onParameterChange"
    · rw [if_pos hex] at h
      cases h
    · rw [if_neg hex, Option.or_eq_some] at h
      rcases h with h | ⟨_, h⟩
      · exact hnested k v h
      · exact htop k v hk (fun e => hex (Or.inr e)) (fun e => hex (Or.inl e)) h
  · intro hnone
    simp only [BacktestPanel.normalizeNode]
    rw [BacktestPanel.get?_params, if_neg (by decide), hnone]
    rfl

/-- On the buy node with a stale top-level `stopLoss`, the parameters other than
"parameters" are strings, and "parameters" still maps to the nested mapping. -/
theorem BacktestPanel.params_flat_except_parameters_witness :
    (∀ k v, k ≠ "parameters" →
      JsObj.get? k (BacktestPanel.normalizeNode actionNodeExample).parameters = some v →
      v.isStrOrNum = true) ∧
    (JsObj.get? "parameters" (nestedParameters actionNodeExample) = none →
      JsObj.get? "parameters" (BacktestPanel.normalizeNode actionNodeExample).parameters =
        JsObj.get? "parameters" actionNodeExample.data) :=
  BacktestPanel.params_flat_except_parameters actionNodeExample
    (fun k v h =>
      (by decide : ∀ p ∈ nestedParameters actionNodeExample, p.2.isStrOrNum = true) (k, v)
        (JsObj.get?_mem _ _ _ h))
    (fun k v h1 h2 _ h =>
      ((by decide : ∀ p ∈ actionNodeExample.data,
          p.1 = "parameters" ∨ p.1 = "onParameterChange" ∨ p.2.isStrOrNum = true) (k, v)
        (JsObj.get?_mem _ _ _ h)).elim (fun e => absurd e h1)
        (fun e => e.elim (fun e2 => absurd e2 h2) id))

/-- C7: in `runBacktest` and in `compileStrategy` alike, the name of the
normalized node is the label of the node when the label is truthy (for a string:
non-empty); otherwise (label missing, `null` or empty) it is "Logic" for a
"logicNode", "Action " followed by the `actionType` of the node for an
"actionNode", and "Node" for every other kind. -/
theorem nodeName_resolution (node : Node) :
    (∀ s : String, s ≠ "" → node.data.prop "label" = JsVal.str s →
      (BacktestPanel.normalizeNode node).name = JsVal.str s ∧
      (App.normalizeNode node).name = JsVal.str s) ∧
    ((node.data.prop "label").truthy = true →
      (BacktestPanel.normalizeNode node).name = node.data.prop "label" ∧
      (App.normalizeNode node).name = node.data.prop "label") ∧
    ((node.data.prop "label" = JsVal.undefined ∨ node.data.prop "label" = JsVal.null ∨
        node.data.prop "label" = JsVal.str "" ∨ (node.data.prop "label").truthy = false) →
      (node.type = JsVal.str "logicNode" →
        (BacktestPanel.normalizeNode node).name = JsVal.str "Logic" ∧
        (App.normalizeNode node).name = JsVal.str "Logic") ∧
      (node.type = JsVal.str "actionNode" →
        (BacktestPanel.normalizeNode node).name =
          JsVal.str ("Action " ++ (node.data.prop "actionType").toStr) ∧
        (App.normalizeNode node).name =
          JsVal.str ("Action " ++ (node.data.prop "actionType").toStr)) ∧
      (node.type ≠ JsVal.str "logicNode" → node.type ≠ JsVal.str "actionNode" →
        (BacktestPanel.normalizeNode node).name = JsVal.str "Node" ∧
        (App.normalizeNode node).name = JsVal.str "Node")) := by
  have hcopy : (App.normalizeNode node).name = (BacktestPanel.normalizeNode node).name := rfl
  have htruthy : (node.data.prop "label").truthy = true →
      (BacktestPanel.normalizeNode node).name = node.data.prop "label" := by
    intro h
    simp [BacktestPanel.normalizeNode, BacktestPanel.nodeName, h]
  refine ⟨?_, ?_, ?_⟩
  · intro s hs hl
    have ht : (node.data.prop "label").truthy = true := by
      rw [hl]
      simp [JsVal.truthy, hs]
    rw [hcopy, htruthy ht, hl]
    exact ⟨rfl, rfl⟩
  · intro ht
    rw [hcopy, htruthy ht]
    exact ⟨rfl, rfl⟩
  · intro hl
    have hf : (node.data.prop "label").truthy = false := by
      rcases hl with h | h | h | h
      · rw [h]; rfl
      · rw [h]; rfl
      · rw [h]; rfl
      · exact h
    rw [hcopy]
    refine ⟨?_, ?_, ?_⟩
    · intro ht
      simp [BacktestPanel.normalizeNode, BacktestPanel.nodeName, hf, ht]
    · intro ht
      simp [BacktestPanel.normalizeNode, BacktestPanel.nodeName, hf, ht]
    · intro h1 h2
      simp [BacktestPanel.normalizeNode, BacktestPanel.nodeName, hf, h1, h2]

/-- The start node is named by its label; the logic node and the buy node, which
have no label, are named "Logic" and "Action buy". -/
theorem nodeName_resolution_witness :
    (BacktestPanel.normalizeNode startNode).name = JsVal.str "Strategy Start" ∧
    (BacktestPanel.normalizeNode logicNodeExample).name = JsVal.str "Logic" ∧
    (App.normalizeNode actionNodeExample).name = JsVal.str "Action buy" :=
  ⟨((nodeName_resolution startNode).1 "Strategy Start" (by decide) (by decide)).1,
    (((nodeName_resolution logicNodeExample).2.2 (Or.inl (by decide))).1 (by decide)).1,
    (((nodeName_resolution actionNodeExample).2.2 (Or.inl (by decide))).2.1 (by decide)).2⟩

/-- C8: the connections built by `runBacktest` are as many as the edges and in
the same order; the i-th connection has exactly the four fields `source`,
`target`, `sourceHandle`, `targetHandle`, each holding what the i-th edge holds
under that name; the node list plays no part. -/
theorem BacktestPanel.connections_copy (strategyName : JsVal) (nodes : List Node)
    (edges : List Edge) :
    (BacktestPanel.strategy strategyName nodes edges).connections.length = edges.length ∧
    ∀ (i : Nat) (edge : Edge), edges[i]? = some edge →
      ∃ c, (BacktestPanel.strategy strategyName nodes edges).connections[i]? = some c ∧
        JsObj.keys c = ["source", "target", "sourceHandle", "targetHandle"] ∧
        c.prop "source" = edge.prop "source" ∧
        c.prop "target" = edge.prop "target" ∧
        c.prop "sourceHandle" = edge.prop "sourceHandle" ∧
        c.prop "targetHandle" = edge.prop "targetHandle" := by
  constructor
  · simp [BacktestPanel.strategy]
  · intro i edge hi
    refine ⟨BacktestPanel.connection edge, ?_, rfl, ?_, ?_, ?_, ?_⟩
    · simp [BacktestPanel.strategy, hi]
    all_goals rfl

/-- An edge whose target is not in the graph is copied like any other. -/
theorem BacktestPanel.connections_copy_witness :
    ∃ c, (BacktestPanel.strategy (JsVal.str "My Alpha Strategy") [startNode]
        [danglingEdge]).connections[0]? = some c ∧
      JsObj.keys c = ["source", "target", "sourceHandle", "targetHandle"] ∧
      c.prop "source" = danglingEdge.prop "source" ∧
      c.prop "target" = danglingEdge.prop "target" ∧
      c.prop "sourceHandle" = danglingEdge.prop "sourceHandle" ∧
      c.prop "targetHandle" = danglingEdge.prop "targetHandle" :=
  (BacktestPanel.connections_copy (JsVal.str "My Alpha Strategy") [startNode]
    [danglingEdge]).2 0 danglingEdge rfl

/-! ## Backtest progress poll -/

/-- C9: on a fetched progress response, `poll` stores the result, shows it, and
clears the running flag, the job id and the interval when the status is
"completed" and the result is truthy (as every result object is); in every other
case it stores no result, and unless the status is "error" it changes nothing but
the progress snapshot; in particular on a status "completed" without a result the
running flag and the job id stay and polling goes on. -/
theorem BacktestPanel.poll_completed (s : BacktestPanel.State) (data : JsVal) :
    (data.getProp "status" = JsVal.str "completed" → (data.getProp "result").truthy = true →
      BacktestPanel.poll s (some data) =
        { s with
          progress := data
          results := data.getProp "result"
          showResults := true
          isRunning := false
          jobId := JsVal.null
          pollActive := false }) ∧
    (¬ (data.getProp "status" = JsVal.str "completed" ∧ (data.getProp "result").truthy = true) →
      (BacktestPanel.poll s (some data)).results = s.results ∧
      (BacktestPanel.poll s (some data)).showResults = s.showResults ∧
      (data.getProp "status" ≠ JsVal.str "error" →
        BacktestPanel.poll s (some data) = { s with progress := data })) ∧
    (data.getProp "status" = JsVal.str "completed" → (data.getProp "result").truthy = false →
      BacktestPanel.poll s (some data) = { s with progress := data }) := by
  refine ⟨?_, ?_, ?_⟩
  · intro hs hr
    cases data <;> simp_all [BacktestPanel.poll, JsVal.getProp]
  · intro hn
    cases data
    case undefined => exact ⟨rfl, rfl, fun _ => rfl⟩
    case null => exact ⟨rfl, rfl, fun _ => rfl⟩
    all_goals
      simp only [BacktestPanel.poll]
      rw [if_neg hn]
      split
      · exact ⟨rfl, rfl, fun he => absurd (by assumption) he⟩
      · exact ⟨rfl, rfl, fun _ => rfl⟩
  · intro hs hr
    cases data <;> simp_all [BacktestPanel.poll, JsVal.getProp]

/-- While polling, a completed response with a result ends the job with the
result stored, and a completed response without a result leaves the job polling. -/
theorem BacktestPanel.poll_completed_witness :
    BacktestPanel.poll pollingState (some completedResponse) =
      { pollingState with
        progress := completedResponse
        results := JsVal.obj [("trades", JsVal.num 7)]
        showResults := true
        isRunning := false
        jobId := JsVal.null
        pollActive := false } ∧
    BacktestPanel.poll pollingState (some completedNoResultResponse) =
      { pollingState with progress := completedNoResultResponse } :=
  ⟨(BacktestPanel.poll_completed pollingState completedResponse).1 (by decide) (by decide),
    (BacktestPanel.poll_completed pollingState completedNoResultResponse).2.2
      (by decide) (by decide)⟩

/-- C10: on a fetched progress response with status "error", `poll` sets the
error to the message of the response, or to "Backtest failed" when the message is
missing, empty or otherwise falsy, clears the running flag, the job id and the
interval, and stores no result. -/
theorem BacktestPanel.poll_error (s : BacktestPanel.State) (data : JsVal)
    (hstatus : data.getProp "status" = JsVal.str "error") :
    BacktestPanel.poll s (some data) =
      { s with
        progress := data
        error := (data.getProp "message").or (JsVal.str "Backtest failed")
        isRunning := false
        jobId := JsVal.null
        pollActive := false } ∧
    ((data.getProp "message").truthy = true →
      (BacktestPanel.poll s (some data)).error = data.getProp "message") ∧
    ((data.getProp "message" = JsVal.undefined ∨ data.getProp "message" = JsVal.str "" ∨
        (data.getProp "message").truthy = false) →
      (BacktestPanel.poll s (some data)).error = JsVal.str "Backtest failed") ∧
    (BacktestPanel.poll s (some data)).isRunning = false ∧
    (BacktestPanel.poll s (some data)).jobId = JsVal.null ∧
    (BacktestPanel.poll s (some data)).pollActive = false ∧
    (BacktestPanel.poll s (some data)).results = s.results ∧
    (BacktestPanel.poll s (some data)).showResults = s.showResults := by
  have hpoll : BacktestPanel.poll s (some data) =
      { s with
        progress := data
        error := (data.getProp "message").or (JsVal.str "Backtest failed")
        isRunning := false
        jobId := JsVal.null
        pollActive := false } := by
    cases data <;> simp_all [BacktestPanel.poll, JsVal.getProp]
  refine ⟨hpoll, ?_, ?_, ?_, ?_, ?_, ?_, ?_⟩
  · intro ht
    rw [hpoll]
    simp [JsVal.or, ht]
  · intro hm
    have hf : (data.getProp "message").truthy = false := by
      rcases hm with h | h | h
      · rw [h]; rfl
      · rw [h]; rfl
      · exact h
    rw [hpoll]
    simp [JsVal.or, hf]
  all_goals rw [hpoll]

/-- While polling, an error response fails the job with its message, and an error
response without a message fails it with "Backtest failed". -/
theorem BacktestPanel.poll_error_witness :
    BacktestPanel.poll pollingState (some errorResponse) =
      { pollingState with
        progress := errorResponse
        error := JsVal.str "No data for symbol"
        isRunning := false
        jobId := JsVal.null
        pollActive := false } ∧
    (BacktestPanel.poll pollingState (some errorNoMessageResponse)).error =
      JsVal.str "Backtest failed" :=
  ⟨(BacktestPanel.poll_error pollingState errorResponse (by decide)).1,
    (BacktestPanel.poll_error pollingState errorNoMessageResponse (by decide)).2.2.1
      (Or.inl (by decide))⟩

end StrategyBuilder

/-! ## Parameter edits -/

namespace StrategyBuilder

namespace JsString

/-- A split yields one piece more than there are separators. -/
theorem length_splitOnChar (sep : Char) (l : List Char) :
    (splitOnChar sep l).length = l.count sep + 1 := by
  induction l with
  | nil => rfl
  | cons c cs ih =>
    by_cases hc : c = sep
    · subst hc
      simp [splitOnChar, ih]
    · have hne : (c == sep) = false := by simpa using hc
      rw [splitOnChar, if_neg hc, List.count_cons, hne]
      cases hsplit : splitOnChar sep cs with
      | nil => rw [hsplit] at ih; simp at ih
      | cons piece pieces => rw [hsplit] at ih; simpa using ih

/-- Removing the other characters keeps the number of dots. -/
theorem dotCount_keepDigitsAndDots (s : String) :
    dotCount (keepDigitsAndDots s) = dotCount s := by
  simp only [dotCount, keepDigitsAndDots]
  exact List.count_filter (by decide)

/-- The number of parts of `sanitized.split('.')`. -/
theorem length_split_keepDigitsAndDots (s : String) :
    (split '.' (keepDigitsAndDots s)).length = dotCount s + 1 := by
  rw [← dotCount_keepDigitsAndDots]
  simp [split, length_splitOnChar, dotCount]

end JsString

/-- The validation of a numeric field in terms of the number of dots. -/
theorem App.sanitize_numeric (key raw : String) (hkey : key ∈ App.numericFields) :
    App.sanitize key raw =
      if 2 ≤ JsString.dotCount raw then none else some (JsString.keepDigitsAndDots raw) := by
  simp only [App.sanitize, if_pos hkey, JsString.length_split_keepDigitsAndDots]
  by_cases h : 2 ≤ JsString.dotCount raw
  · rw [if_pos h, if_pos (by omega)]
  · rw [if_neg h, if_neg (by omega)]

/-- The nested parameters of an updated node. -/
theorem App.nestedParameters_updateNode (key value : String) (node : Node) :
    nestedParameters (App.updateNode key value node) =
      JsObj.set (JsObj.spread [] (nestedParameters node)) key (JsVal.str value) := by
  have hread : ∀ data : JsObj, ∀ ps : JsObj,
      JsObj.get? "parameters" data = some (JsVal.obj ps) →
      ((JsObj.prop data "parameters").or (JsVal.obj [])).ownEntries = ps := by
    intro data ps h
    simp [JsObj.prop, h, JsVal.or, JsVal.truthy, JsVal.ownEntries]
  unfold nestedParameters App.updateNode
  apply hread
  by_cases hk : key = "operator" ∨ key = "value" ∨ key = "stopLoss" ∨ key = "takeProfit"
  · have hne : ¬ "parameters" = key := by
      rcases hk with h | h | h | h <;> subst h <;> decide
    simp only [if_pos hk]
    rw [JsObj.get?_set, if_neg hne, JsObj.get?_set, if_pos rfl]
    rfl
  · simp only [if_neg hk]
    rw [JsObj.get?_set, if_pos rfl]
    rfl

/-- An accepted edit writes its value into the nested parameters of the node with
the edited id. -/
theorem App.onParameterChange_writes (nds : List Node) (id key raw value : String)
    (hs : App.sanitize key raw = some value) (node : Node) (hnode : node ∈ nds)
    (hid : node.id = id) :
    ∃ node' ∈ App.onParameterChange nds id key raw,
      node'.id = id ∧ JsObj.get? key (nestedParameters node') = some (JsVal.str value) := by
  refine ⟨App.updateNode key value node, ?_, ?_, ?_⟩
  · simp only [App.onParameterChange, hs, List.mem_map]
    exact ⟨node, hnode, by simp [hid]⟩
  · simpa [App.updateNode] using hid
  · rw [App.nestedParameters_updateNode, JsObj.get?_set, if_pos rfl]

/-- C13: for a numeric field and a raw string with at most one dot, the edit is
accepted with the raw string stripped of every character other than the digits
and the dot, the others kept in order, and this value is written into the nested
parameters of the node with the edited id. -/
theorem App.sanitize_strips (key raw : String) (hkey : key ∈ App.numericFields)
    (hdots : JsString.dotCount raw ≤ 1) :
    App.sanitize key raw = some (JsString.keepDigitsAndDots raw) ∧
    (JsString.keepDigitsAndDots raw).toList =
      raw.toList.filter (fun c => c.isDigit || c = '.') ∧
    (∀ (nds : List Node) (id : String) (node : Node), node ∈ nds → node.id = id →
      ∃ node' ∈ App.onParameterChange nds id key raw,
        node'.id = id ∧
        JsObj.get? key (nestedParameters node') =
          some (JsVal.str (JsString.keepDigitsAndDots raw))) := by
  have hs : App.sanitize key raw = some (JsString.keepDigitsAndDots raw) := by
    rw [App.sanitize_numeric key raw hkey, if_neg (by omega)]
  exact ⟨hs, rfl, fun nds id node hnode hid =>
    App.onParameterChange_writes nds id key raw _ hs node hnode hid⟩

/-- The edits "14abc", "$30" and "2.5" are accepted as "14", "30" and "2.5". -/
theorem App.sanitize_strips_witness :
    App.sanitize "period" "14abc" = some "14" ∧
    App.sanitize "value" "$30" = some "30" ∧
    App.sanitize "stopLoss" "2.5" = some "2.5" ∧
    (∃ node' ∈ App.onParameterChange [startNode, actionNodeExample] "action-1" "stopLoss" "2.5",
      node'.id = "action-1" ∧
      JsObj.get? "stopLoss" (nestedParameters node') = some (JsVal.str "2.5")) :=
  ⟨(App.sanitize_strips "period" "14abc" (by decide) (by decide)).1,
    (App.sanitize_strips "value" "$30" (by decide) (by decide)).1,
    (App.sanitize_strips "stopLoss" "2.5" (by decide) (by decide)).1,
    (App.sanitize_strips "stopLoss" "2.5" (by decide) (by decide)).2.2
      [startNode, actionNodeExample] "action-1" actionNodeExample (by decide) rfl⟩

/-- C14: for a numeric field the edit is rejected exactly when the raw string has
two or more dots, and a rejected edit leaves the node list as it was. -/
theorem App.sanitize_rejects_iff (key raw : String) (hkey : key ∈ App.numericFields) :
    (App.sanitize key raw = none ↔ 2 ≤ JsString.dotCount raw) ∧
    (App.sanitize key raw = none →
      ∀ (nds : List Node) (id : String), App.onParameterChange nds id key raw = nds) := by
  constructor
  · rw [App.sanitize_numeric key raw hkey]
    by_cases h : 2 ≤ JsString.dotCount raw <;> simp [h]
  · intro hnone nds id
    simp [App.onParameterChange, hnone]

/-- The edit "2.5.3" of `value` is rejected and changes no node; the edit "2.5" is
accepted. -/
theorem App.sanitize_rejects_iff_witness :
    App.sanitize "value" "2.5.3" = none ∧
    App.onParameterChange [startNode, logicNodeExample] "logic-1" "value" "2.5.3" =
      [startNode, logicNodeExample] ∧
    App.sanitize "value" "2.5" = some "2.5" :=
  ⟨(App.sanitize_rejects_iff "value" "2.5.3" (by decide)).1.2 (by decide),
    (App.sanitize_rejects_iff "value" "2.5.3" (by decide)).2
      ((App.sanitize_rejects_iff "value" "2.5.3" (by decide)).1.2 (by decide)) _ _,
    by decide⟩

/-- C15: for a field outside the numeric list the edit is never rejected, the raw
value passes unchanged, and it is written into the nested parameters of the node
with the edited id. -/
theorem App.sanitize_passthrough (key raw : String) (hkey : key ∉ App.numericFields) :
    App.sanitize key raw = some raw ∧
    App.sanitize key raw ≠ none ∧
    (∀ (nds : List Node) (id : String) (node : Node), node ∈ nds → node.id = id →
      ∃ node' ∈ App.onParameterChange nds id key raw,
        node'.id = id ∧ JsObj.get? key (nestedParameters node') = some (JsVal.str raw)) := by
  have hs : App.sanitize key raw = some raw := by
    simp [App.sanitize, hkey]
  refine ⟨hs, by simp [hs], fun nds id node hnode hid =>
    App.onParameterChange_writes nds id key raw _ hs node hnode hid⟩

/-- The operator "crossover" and a text with letters and several dots pass
unchanged. -/
theorem App.sanitize_passthrough_witness :
    App.sanitize "operator" "crossover" = some "crossover" ∧
    App.sanitize "actionType" "buy.2.x" = some "buy.2.x" ∧
    (∃ node' ∈ App.onParameterChange [logicNodeExample] "logic-1" "operator" "crossover",
      node'.id = "logic-1" ∧
      JsObj.get? "operator" (nestedParameters node') = some (JsVal.str "crossover")) :=
  ⟨(App.sanitize_passthrough "operator" "crossover" (by decide)).1,
    (App.sanitize_passthrough "actionType" "buy.2.x" (by decide)).1,
    (App.sanitize_passthrough "operator" "crossover" (by decide)).2.2
      [logicNodeExample] "logic-1" logicNodeExample (by decide) rfl⟩

end StrategyBuilder

/-! ## Backtest submission, poll loop and phase dots -/

namespace StrategyBuilder

/-- A tick with a response that is neither a completion with a result nor an
error changes only the progress snapshot. -/
theorem BacktestPanel.poll_pending (s : BacktestPanel.State) (data : JsVal)
    (hdone : ¬ (data.getProp "status" = JsVal.str "completed" ∧
      (data.getProp "result").truthy = true))
    (herr : data.getProp "status" ≠ JsVal.str "error") :
    BacktestPanel.poll s (some data) = { s with progress := data } := by
  cases data
  case undefined => rfl
  case null => rfl
  all_goals
    simp only [BacktestPanel.poll]
    rw [if_neg hdone, if_neg herr]

/-- Ticks whose requests all fail leave the state as it was. -/
theorem BacktestPanel.pollLoop_failures (s : BacktestPanel.State) (n : Nat) :
    BacktestPanel.pollLoop s (List.replicate n none) = s := by
  induction n with
  | zero => rfl
  | succ n ih =>
    rw [List.replicate_succ]
    simp only [BacktestPanel.pollLoop, List.foldl_cons, BacktestPanel.poll, ite_self] at ih ⊢
    exact ih

/-- C11: a poll tick whose request fails leaves the whole state unchanged; so
after any number of failed ticks the job is polling as before, and when a
response follows that is neither a completion with a result nor an error, the
job is still polling and the progress snapshot is that response. -/
theorem BacktestPanel.poll_transient_resilience (s : BacktestPanel.State) (n : Nat)
    (data : JsVal) (hactive : s.pollActive = true)
    (hdone : ¬ (data.getProp "status" = JsVal.str "completed" ∧
      (data.getProp "result").truthy = true))
    (herr : data.getProp "status" ≠ JsVal.str "error") :
    BacktestPanel.poll s none = s ∧
    (∀ m, m ≤ n → BacktestPanel.pollLoop s (List.replicate m none) = s) ∧
    BacktestPanel.pollLoop s (List.replicate n none ++ [some data]) =
      { s with progress := data } ∧
    (BacktestPanel.pollLoop s (List.replicate n none ++ [some data])).isRunning = s.isRunning ∧
    (BacktestPanel.pollLoop s (List.replicate n none ++ [some data])).jobId = s.jobId ∧
    (BacktestPanel.pollLoop s (List.replicate n none ++ [some data])).pollActive = true ∧
    (BacktestPanel.pollLoop s (List.replicate n none ++ [some data])).progress = data := by
  have hloop : BacktestPanel.pollLoop s (List.replicate n none ++ [some data]) =
      { s with progress := data } := by
    have hfail := BacktestPanel.pollLoop_failures s n
    simp only [BacktestPanel.pollLoop] at hfail ⊢
    rw [List.foldl_append, hfail]
    simp only [List.foldl_cons, List.foldl_nil, if_pos hactive]
    exact BacktestPanel.poll_pending s data hdone herr
  refine ⟨rfl, fun m _ => BacktestPanel.pollLoop_failures s m, hloop, ?_, ?_, ?_, ?_⟩
  · rw [hloop]
  · rw [hloop]
  · rw [hloop]
    exact hactive
  · rw [hloop]

/-- Three failed ticks followed by a response with status "running": the job is
still polling and shows that response. -/
theorem BacktestPanel.poll_transient_resilience_witness :
    BacktestPanel.pollLoop pollingState [none, none, none, some runningResponse] =
      { pollingState with progress := runningResponse } :=
  (BacktestPanel.poll_transient_resilience pollingState 3 runningResponse rfl
    (by decide) (by decide)).2.2.1

/-- C12 fails on the code: after `runBacktest` has started from the idle panel, a
submission response that reports a refusal and carries no job id changes
nothing: the panel stays running, the error stays empty, and no job is polled. -/
theorem BacktestPanel.runBacktest_without_job_id :
    BacktestPanel.runBacktestResponse (BacktestPanel.runBacktestStart idleState)
        (Except.ok noJobIdResponse) = BacktestPanel.runBacktestStart idleState ∧
    (BacktestPanel.runBacktestResponse (BacktestPanel.runBacktestStart idleState)
        (Except.ok noJobIdResponse)).isRunning = true ∧
    (BacktestPanel.runBacktestResponse (BacktestPanel.runBacktestStart idleState)
        (Except.ok noJobIdResponse)).error = JsVal.str "" ∧
    (BacktestPanel.runBacktestResponse (BacktestPanel.runBacktestStart idleState)
        (Except.ok noJobIdResponse)).jobId = JsVal.null ∧
    (BacktestPanel.runBacktestResponse (BacktestPanel.runBacktestStart idleState)
        (Except.ok noJobIdResponse)).pollActive = false := by
  decide

/-- The positions of the ordered phase vocabulary. -/
theorem BacktestPanel.vocabulary_cases (p : String) (i : Nat)
    (hp : ["converting", "downloading", "processing", "indicators", "risk", "backtesting",
      "results"][i]? = some p) :
    (i = 0 ∧ p = "converting") ∨ (i = 1 ∧ p = "downloading") ∨ (i = 2 ∧ p = "processing") ∨
    (i = 3 ∧ p = "indicators") ∨ (i = 4 ∧ p = "risk") ∨ (i = 5 ∧ p = "backtesting") ∨
    (i = 6 ∧ p = "results") := by
  rcases i with _ | _ | _ | _ | _ | _ | _ | i
  all_goals simp at hp
  all_goals simp [hp]

/-- C17: with the vocabulary ordered converting, downloading, processing,
indicators, risk, backtesting, results, for the phase `p` at position `i` and the
reported phase `q` at position `j` of the vocabulary, the dot of `p` is drawn as
done exactly when `i < j`, as current exactly when `i = j`, and as pending
exactly when `j < i`; it is one of the three; and the row of dots shows the dot
of `p` at position `i`, titled `p`. -/
theorem BacktestPanel.phaseDot_order (p q : String) (i j : Nat)
    (hp : ["converting", "downloading", "processing", "indicators", "risk", "backtesting",
      "results"][i]? = some p)
    (hq : ["converting", "downloading", "processing", "indicators", "risk", "backtesting",
      "results"][j]? = some q) :
    (BacktestPanel.phaseDot (JsVal.str q) p = BacktestPanel.PhaseDot.done ↔ i < j) ∧
    (BacktestPanel.phaseDot (JsVal.str q) p = BacktestPanel.PhaseDot.current ↔ i = j) ∧
    (BacktestPanel.phaseDot (JsVal.str q) p = BacktestPanel.PhaseDot.pending ↔ j < i) ∧
    (BacktestPanel.phaseDot (JsVal.str q) p = BacktestPanel.PhaseDot.done ∨
      BacktestPanel.phaseDot (JsVal.str q) p = BacktestPanel.PhaseDot.current ∨
      BacktestPanel.phaseDot (JsVal.str q) p = BacktestPanel.PhaseDot.pending) ∧
    (BacktestPanel.phaseDots (JsVal.str q))[i]? =
      some (p, BacktestPanel.phaseDot (JsVal.str q) p) ∧
    (BacktestPanel.phaseDots (JsVal.str q)).length = 7 := by
  rcases BacktestPanel.vocabulary_cases p i hp with
    ⟨rfl, rfl⟩ | ⟨rfl, rfl⟩ | ⟨rfl, rfl⟩ | ⟨rfl, rfl⟩ | ⟨rfl, rfl⟩ | ⟨rfl, rfl⟩ | ⟨rfl, rfl⟩ <;>
  rcases BacktestPanel.vocabulary_cases q j hq with
    ⟨rfl, rfl⟩ | ⟨rfl, rfl⟩ | ⟨rfl, rfl⟩ | ⟨rfl, rfl⟩ | ⟨rfl, rfl⟩ | ⟨rfl, rfl⟩ | ⟨rfl, rfl⟩ <;>
  decide

/-- While the job reports "processing", the dots of "converting" and
"downloading" are done, the dot of "processing" is current and the four later
dots are pending. -/
theorem BacktestPanel.phaseDot_order_witness :
    BacktestPanel.phaseDot (JsVal.str "processing") "downloading" =
      BacktestPanel.PhaseDot.done ∧
    BacktestPanel.phaseDot (JsVal.str "processing") "processing" =
      BacktestPanel.PhaseDot.current ∧
    BacktestPanel.phaseDot (JsVal.str "processing") "risk" = BacktestPanel.PhaseDot.pending ∧
    BacktestPanel.phaseDots (JsVal.str "processing") =
      [ ("converting", BacktestPanel.PhaseDot.done), ("downloading", BacktestPanel.PhaseDot.done),
        ("processing", BacktestPanel.PhaseDot.current),
        ("indicators", BacktestPanel.PhaseDot.pending), ("risk", BacktestPanel.PhaseDot.pending),
        ("backtesting", BacktestPanel.PhaseDot.pending),
        ("results", BacktestPanel.PhaseDot.pending) ] :=
  ⟨(BacktestPanel.phaseDot_order "downloading" "processing" 1 2 rfl rfl).1.mpr (by decide),
    (BacktestPanel.phaseDot_order "processing" "processing" 2 2 rfl rfl).2.1.mpr rfl,
    (BacktestPanel.phaseDot_order "risk" "processing" 4 2 rfl rfl).2.2.1.mpr (by decide),
    by decide⟩

end StrategyBuilder

/-! ## Pipeline monitor -/

namespace StrategyBuilder

/-- C18: on a fetched gateway job payload whose `gateway_running` is truthy,
whatever its status, the poll clears the job id and the start message, stops the
interval and shows the success message "Gateway is running". -/
theorem PipelineMonitor.gatewayPoll_running (s : PipelineMonitor.State) (d : JsVal)
    (hrunning : (d.getProp "gateway_running").truthy = true) :
    PipelineMonitor.gatewayPoll s (some d) =
      { s with
        gatewayStartMsg := JsVal.null
        gatewayJobId := JsVal.null
        gatewayPollActive := false
        actionMsg :=
          JsVal.obj [("type", JsVal.str "success"), ("text", JsVal.str "Gateway is running")] } ∧
    (PipelineMonitor.gatewayPoll s (some d)).gatewayJobId = JsVal.null ∧
    (PipelineMonitor.gatewayPoll s (some d)).gatewayStartMsg = JsVal.null ∧
    (PipelineMonitor.gatewayPoll s (some d)).gatewayPollActive = false ∧
    (PipelineMonitor.gatewayPoll s (some d)).actionMsg.getProp "type" = JsVal.str "success" := by
  have hpoll : PipelineMonitor.gatewayPoll s (some d) =
      { s with
        gatewayStartMsg := JsVal.null
        gatewayJobId := JsVal.null
        gatewayPollActive := false
        actionMsg :=
          JsVal.obj [("type", JsVal.str "success"), ("text", JsVal.str "Gateway is running")] } := by
    cases d <;>
      simp_all [PipelineMonitor.gatewayPoll, PipelineMonitor.showActionResult, JsVal.getProp,
        JsVal.truthy]
  refine ⟨hpoll, ?_, ?_, ?_, ?_⟩ <;> rw [hpoll]
  rfl

/-- A payload with status "error" and the gateway up ends the launch job as a
success. -/
theorem PipelineMonitor.gatewayPoll_running_witness :
    PipelineMonitor.gatewayPoll gatewayLaunchingState (some gatewayUpErrorPayload) =
      { gatewayLaunchingState with
        gatewayStartMsg := JsVal.null
        gatewayJobId := JsVal.null
        gatewayPollActive := false
        actionMsg :=
          JsVal.obj [("type", JsVal.str "success"), ("text", JsVal.str "Gateway is running")] } :=
  (PipelineMonitor.gatewayPoll_running gatewayLaunchingState gatewayUpErrorPayload
    (by decide)).1

/-- The message shown for a response body by `presentResponse`. -/
theorem PipelineMonitor.actionMsg_presentResponse (s : PipelineMonitor.State) (data : JsVal)
    (hbody : data.truthy = true) :
    (PipelineMonitor.presentResponse s data).actionMsg =
      JsVal.obj
        [("type", JsVal.str (if data.getProp "status" ∈ PipelineMonitor.okStatuses
            then "success" else "error")),
          ("text", (data.getProp "message").or (data.getProp "status"))] := by
  simp only [PipelineMonitor.presentResponse, if_pos hbody, PipelineMonitor.showActionResult,
    PipelineMonitor.okStatuses]
  by_cases h1 : data.getProp "status" = JsVal.str "started"
  · simp [h1]
  by_cases h2 : data.getProp "status" = JsVal.str "stopped"
  · simp [h2]
  by_cases h3 : data.getProp "status" = JsVal.str "authenticated"
  · simp [h3]
  by_cases h4 : data.getProp "status" = JsVal.str "already_running"
  · simp [h4]
  by_cases h5 : data.getProp "status" = JsVal.str "not_running"
  · simp [h5]
  by_cases h6 : data.getProp "status" = JsVal.str "launched"
  · simp [h6]
  simp [h1, h2, h3, h4, h5, h6]

/-- C19: for a stop, login, pipeline start (with a config selected) or pipeline
stop action whose request resolves with a truthy body, the message shown is of
type "success" exactly when the status of the body is one of started, stopped,
authenticated, already_running, not_running, launched, and of type "error" for
every other status; its text is the message of the body, or else the status. -/
theorem PipelineMonitor.handleAction_success_set (s : PipelineMonitor.State) (action : String)
    (data : JsVal)
    (haction : action ∈ ["gateway-stop", "login", "pipeline-start", "pipeline-stop"])
    (hconfig : action = "pipeline-start" → s.selectedConfig.truthy = true)
    (hbody : data.truthy = true) :
    ((PipelineMonitor.handleAction s action (Except.ok data)).actionMsg.getProp "type" =
        JsVal.str "success" ↔ data.getProp "status" ∈ PipelineMonitor.okStatuses) ∧
    ((PipelineMonitor.handleAction s action (Except.ok data)).actionMsg.getProp "type" =
        JsVal.str "error" ↔ data.getProp "status" ∉ PipelineMonitor.okStatuses) ∧
    (PipelineMonitor.handleAction s action (Except.ok data)).actionMsg.getProp "text" =
      (data.getProp "message").or (data.getProp "status") ∧
    (PipelineMonitor.handleAction s action (Except.ok data)).actionLoading = JsVal.null := by
  have hmsg : (PipelineMonitor.handleAction s action (Except.ok data)).actionMsg =
      JsVal.obj
        [("type", JsVal.str (if data.getProp "status" ∈ PipelineMonitor.okStatuses
            then "success" else "error")),
          ("text", (data.getProp "message").or (data.getProp "status"))] := by
    simp only [List.mem_cons, List.mem_singleton, List.not_mem_nil, or_false] at haction
    rcases haction with h | h | h | h
    · subst h
      simp [PipelineMonitor.handleAction, PipelineMonitor.actionMsg_presentResponse, hbody]
    · subst h
      simp [PipelineMonitor.handleAction, PipelineMonitor.actionMsg_presentResponse, hbody]
    · subst h
      have hc := hconfig rfl
      simp [PipelineMonitor.handleAction, PipelineMonitor.actionMsg_presentResponse, hbody, hc]
    · subst h
      simp [PipelineMonitor.handleAction, PipelineMonitor.actionMsg_presentResponse, hbody]
  have hload : (PipelineMonitor.handleAction s action (Except.ok data)).actionLoading =
      JsVal.null := by
    simp only [List.mem_cons, List.mem_singleton, List.not_mem_nil, or_false] at haction
    rcases haction with h | h | h | h
    · subst h
      simp [PipelineMonitor.handleAction]
    · subst h
      simp [PipelineMonitor.handleAction]
    · subst h
      have hc := hconfig rfl
      simp [PipelineMonitor.handleAction, hc]
    · subst h
      simp [PipelineMonitor.handleAction]
  refine ⟨?_, ?_, ?_, hload⟩
  · rw [hmsg]
    by_cases hok : data.getProp "status" ∈ PipelineMonitor.okStatuses
    · simp [hok, JsVal.getProp, JsObj.prop, JsObj.get?]
    · simp [hok, JsVal.getProp, JsObj.prop, JsObj.get?]
  · rw [hmsg]
    by_cases hok : data.getProp "status" ∈ PipelineMonitor.okStatuses
    · simp [hok, JsVal.getProp, JsObj.prop, JsObj.get?]
    · simp [hok, JsVal.getProp, JsObj.prop, JsObj.get?]
  · rw [hmsg]
    simp [JsVal.getProp, JsObj.prop, JsObj.get?]

/-- A stop answered with status "stopped" is shown as a success; a login answered
with status "connected" is shown as an error. -/
theorem PipelineMonitor.handleAction_success_set_witness :
    (PipelineMonitor.handleAction gatewayLaunchingState "gateway-stop"
        (Except.ok stoppedResponse)).actionMsg.getProp "type" = JsVal.str "success" ∧
    (PipelineMonitor.handleAction monitorState "login"
        (Except.ok loginConnectedResponse)).actionMsg.getProp "type" = JsVal.str "error" :=
  ⟨(PipelineMonitor.handleAction_success_set gatewayLaunchingState "gateway-stop"
      stoppedResponse (by decide) (by decide) (by decide)).1.2 (by decide),
    (PipelineMonitor.handleAction_success_set monitorState "login" loginConnectedResponse
      (by decide) (by decide) (by decide)).2.1.2 (by decide)⟩

/-- Failed status polls leave the state as it was. -/
theorem PipelineMonitor.fetchStatus_failures (s : PipelineMonitor.State) (times : List Nat) :
    times.foldl (fun st t => PipelineMonitor.fetchStatus st t none) s = s := by
  induction times with
  | nil => rfl
  | cons t rest ih =>
    rw [List.foldl_cons]
    exact ih

/-- C20: a status poll whose request fails leaves the snapshot and the time of
the last update as they were; a successful poll replaces the snapshot by the
response, whatever the response is, and sets the time of the last update; any
number of failed polls after it leave that response and that time in place; so
if the response reports `gateway.running` true, the snapshot still reports
`gateway.running` true after the failed polls. -/
theorem PipelineMonitor.fetchStatus_stale_on_failure (s : PipelineMonitor.State) (now : Nat)
    (data : JsVal) (times : List Nat) :
    (∀ t, PipelineMonitor.fetchStatus s t none = s) ∧
    (PipelineMonitor.fetchStatus s now (some data)).status = data ∧
    (PipelineMonitor.fetchStatus s now (some data)).lastUpdate = some now ∧
    times.foldl (fun st t => PipelineMonitor.fetchStatus st t none)
        (PipelineMonitor.fetchStatus s now (some data)) =
      PipelineMonitor.fetchStatus s now (some data) ∧
    (times.foldl (fun st t => PipelineMonitor.fetchStatus st t none)
        (PipelineMonitor.fetchStatus s now (some data))).status = data ∧
    (times.foldl (fun st t => PipelineMonitor.fetchStatus st t none)
        (PipelineMonitor.fetchStatus s now (some data))).lastUpdate = some now ∧
    ((data.getProp "gateway").getProp "running" = JsVal.bool true →
      ((times.foldl (fun st t => PipelineMonitor.fetchStatus st t none)
          (PipelineMonitor.fetchStatus s now (some data))).status.getProp "gateway").getProp
            "running" = JsVal.bool true) := by
  refine ⟨fun _ => rfl, rfl, rfl, PipelineMonitor.fetchStatus_failures _ times, ?_, ?_, ?_⟩
  · rw [PipelineMonitor.fetchStatus_failures]
    rfl
  · rw [PipelineMonitor.fetchStatus_failures]
    rfl
  · intro hrunning
    rw [PipelineMonitor.fetchStatus_failures]
    exact hrunning

/-- After a successful poll with the gateway up and three failed polls, the
snapshot is still that response and still reports the gateway as running; a
successful poll with the gateway down replaces the snapshot just the same. -/
theorem PipelineMonitor.fetchStatus_stale_on_failure_witness :
    ([1005, 1010, 1015].foldl (fun st t => PipelineMonitor.fetchStatus st t none)
        (PipelineMonitor.fetchStatus monitorState 1000 (some gatewayUpStatus))).status =
      gatewayUpStatus ∧
    ((([1005, 1010, 1015].foldl (fun st t => PipelineMonitor.fetchStatus st t none)
        (PipelineMonitor.fetchStatus monitorState 1000 (some gatewayUpStatus))).status.getProp
          "gateway").getProp "running" = JsVal.bool true) ∧
    (PipelineMonitor.fetchStatus
        (PipelineMonitor.fetchStatus monitorState 1000 (some gatewayUpStatus)) 1020
        (some gatewayDownStatus)).status = gatewayDownStatus :=
  ⟨(PipelineMonitor.fetchStatus_stale_on_failure monitorState 1000 gatewayUpStatus
      [1005, 1010, 1015]).2.2.2.2.1,
    (PipelineMonitor.fetchStatus_stale_on_failure monitorState 1000 gatewayUpStatus
      [1005, 1010, 1015]).2.2.2.2.2.2 (by decide),
    (PipelineMonitor.fetchStatus_stale_on_failure
      (PipelineMonitor.fetchStatus monitorState 1000 (some gatewayUpStatus)) 1020
      gatewayDownStatus []).2.1⟩

end StrategyBuilder

/-! ## Symbol list -/

namespace StrategyBuilder

namespace JsString

theorem eq_empty_iff (s : String) : s = "" ↔ s.toList = [] := by
  constructor
  · intro h
    rw [h]
    rfl
  · intro h
    cases s with
    | mk data =>
      simp only [String.toList] at h
      rw [h]

/-- Upper-casing yields the empty string only from the empty string. -/
theorem toUpperCase_eq_empty_iff (upper : Char → List Char) (hne : ∀ c, upper c ≠ [])
    (s : String) : toUpperCase upper s = "" ↔ s = "" := by
  rw [eq_empty_iff, eq_empty_iff]
  simp only [toUpperCase, String.toList]
  cases hs : s.data with
  | nil => simp
  | cons a rest => simp [hne a]

/-- The first character left by trimming is no white space. -/
theorem head?_trim (l : List Char) (a : Char)
    (h : ((l.dropWhile isWhiteSpace).rdropWhile isWhiteSpace).head? = some a) :
    isWhiteSpace a = false := by
  have hpre := List.rdropWhile_prefix isWhiteSpace (l.dropWhile isWhiteSpace)
  obtain ⟨t, ht⟩ := hpre
  have hhead := List.head?_dropWhile_not isWhiteSpace l
  rw [← ht, List.head?_append, h] at hhead
  simpa using hhead

/-- The last character left by trimming is no white space. -/
theorem getLast?_trim (l : List Char) (z : Char)
    (h : ((l.dropWhile isWhiteSpace).rdropWhile isWhiteSpace).getLast? = some z) :
    isWhiteSpace z = false := by
  have hnil : (l.dropWhile isWhiteSpace).rdropWhile isWhiteSpace ≠ [] := by
    intro e
    rw [e] at h
    simp at h
  have hlast := List.rdropWhile_last_not isWhiteSpace (l.dropWhile isWhiteSpace) hnil
  rw [List.getLast?_eq_getLast _ hnil] at h
  simp only [Option.some.injEq] at h
  rw [h] at hlast
  simpa using hlast

/-- The first character of an upper-cased text comes from its first character. -/
theorem head?_flatMap_upper (upper : Char → List Char) (hne : ∀ c, upper c ≠ [])
    (l : List Char) (c : Char) (h : (l.flatMap upper).head? = some c) :
    ∃ a, l.head? = some a ∧ c ∈ upper a := by
  cases l with
  | nil => simp at h
  | cons a rest =>
    refine ⟨a, rfl, ?_⟩
    rw [List.flatMap_cons, List.head?_append] at h
    cases hu : upper a with
    | nil => exact absurd hu (hne a)
    | cons b bs =>
      rw [hu] at h
      simp only [List.head?_cons, Option.or_some, Option.some.injEq] at h
      rw [← h]
      exact List.mem_cons_self _ _

/-- The last character of an upper-cased text comes from its last character. -/
theorem getLast?_flatMap_upper (upper : Char → List Char) (hne : ∀ c, upper c ≠ [])
    (l : List Char) (c : Char) (h : (l.flatMap upper).getLast? = some c) :
    ∃ z, l.getLast? = some z ∧ c ∈ upper z := by
  rcases List.eq_nil_or_concat l with hl | ⟨init, z, hl⟩
  · subst hl
    simp at h
  · subst hl
    refine ⟨z, by simp, ?_⟩
    rw [List.concat_eq_append, List.flatMap_append, List.getLast?_append] at h
    simp only [List.flatMap_cons, List.flatMap_nil, List.append_nil] at h
    have hz : (upper z).getLast? = some ((upper z).getLast (hne z)) :=
      List.getLast?_eq_getLast _ (hne z)
    rw [hz] at h
    simp only [Option.or_some, Option.some.injEq] at h
    rw [← h]
    exact List.getLast_mem _

/-- The ASCII upper-case form of a character that is no white space is no white
space. -/
theorem asciiUpper_not_whiteSpace (c : Char) (h : isWhiteSpace c = false) :
    ∀ d ∈ asciiUpper c, isWhiteSpace d = false := by
  intro d hd
  simp only [asciiUpper, List.mem_singleton] at hd
  subst hd
  have hupper : c.toUpper =
      if c.toNat ≥ 97 ∧ c.toNat ≤ 122 then Char.ofNat (c.toNat - 32) else c := rfl
  rw [hupper]
  by_cases hrange : c.toNat ≥ 97 ∧ c.toNat ≤ 122
  · rw [if_pos hrange]
    obtain ⟨h1, h2⟩ := hrange
    generalize c.toNat = n at h1 h2 ⊢
    interval_cases n <;> decide
  · rw [if_neg hrange]
    exact h

end JsString

/-- The symbol list in terms of the trimmed pieces. -/
theorem BacktestPanel.symbolList_eq (upper : Char → List Char) (hne : ∀ c, upper c ≠ [])
    (symbols : String) :
    BacktestPanel.symbolList upper symbols =
      (((JsString.split ',' symbols).map JsString.trim).filter
        (fun s => decide (s ≠ ""))).map (JsString.toUpperCase upper) := by
  simp only [BacktestPanel.symbolList]
  induction JsString.split ',' symbols with
  | nil => rfl
  | cons piece rest ih =>
    simp only [List.map_cons]
    by_cases hp : JsString.trim piece = ""
    · have hu : JsString.toUpperCase upper (JsString.trim piece) = "" :=
        (JsString.toUpperCase_eq_empty_iff upper hne _).2 hp
      rw [List.filter_cons_of_neg (by simp [hu]), List.filter_cons_of_neg (by simp [hp])]
      exact ih
    · have hu : ¬ JsString.toUpperCase upper (JsString.trim piece) = "" :=
        fun e => hp ((JsString.toUpperCase_eq_empty_iff upper hne _).1 e)
      rw [List.filter_cons_of_pos (by simp [hu]), List.filter_cons_of_pos (by simp [hp]),
        List.map_cons, ih]

/-- C16: given an upper-case table that maps every character to at least one
character and no character other than white space to white space, the symbol list
of `runBacktest` and of `generateFromGraph` consists of the pieces between the
commas, trimmed, without those that are empty once trimmed, in their order and
upper-cased; no symbol is empty, and none starts or ends with white space. -/
theorem symbolList_parse (upper : Char → List Char) (hne : ∀ c, upper c ≠ [])
    (hws : ∀ c, JsString.isWhiteSpace c = false →
      ∀ d ∈ upper c, JsString.isWhiteSpace d = false)
    (symbols : String) :
    BacktestPanel.symbolList upper symbols =
      (((JsString.split ',' symbols).map JsString.trim).filter
        (fun s => decide (s ≠ ""))).map (JsString.toUpperCase upper) ∧
    ConfigEditor.symbolList upper symbols = BacktestPanel.symbolList upper symbols ∧
    (∀ sym ∈ BacktestPanel.symbolList upper symbols,
      sym ≠ "" ∧
      (∀ c, sym.toList.head? = some c → JsString.isWhiteSpace c = false) ∧
      (∀ c, sym.toList.getLast? = some c → JsString.isWhiteSpace c = false)) := by
  refine ⟨BacktestPanel.symbolList_eq upper hne symbols, rfl, ?_⟩
  intro sym hsym
  simp only [BacktestPanel.symbolList, List.mem_filter, List.mem_map] at hsym
  obtain ⟨⟨piece, _, hpiece⟩, hnonempty⟩ := hsym
  refine ⟨by simpa using hnonempty, ?_, ?_⟩
  · intro c hc
    rw [← hpiece] at hc
    obtain ⟨a, ha, hca⟩ := JsString.head?_flatMap_upper upper hne _ c hc
    exact hws a (JsString.head?_trim _ a ha) c hca
  · intro c hc
    rw [← hpiece] at hc
    obtain ⟨z, hz, hcz⟩ := JsString.getLast?_flatMap_upper upper hne _ c hc
    exact hws z (JsString.getLast?_trim _ z hz) c hcz

/-- With the ASCII upper-case table, "AAPL, , msft, " gives the symbols "AAPL" and
"MSFT". -/
theorem symbolList_parse_witness :
    BacktestPanel.symbolList JsString.asciiUpper "AAPL, , msft, " = ["AAPL", "MSFT"] ∧
    ConfigEditor.symbolList JsString.asciiUpper "AAPL, , msft, " = ["AAPL", "MSFT"] :=
  ⟨((symbolList_parse JsString.asciiUpper (fun _ => List.cons_ne_nil _ _)
      JsString.asciiUpper_not_whiteSpace "AAPL, , msft, ").1).trans (by decide),
    ((symbolList_parse JsString.asciiUpper (fun _ => List.cons_ne_nil _ _)
      JsString.asciiUpper_not_whiteSpace "AAPL, , msft, ").2.1).trans (by decide)⟩

end StrategyBuilder

/-! ## Parameter edits: idempotence, frame and submission -/

namespace StrategyBuilder

/-- Stripping a stripped string changes nothing. -/
theorem JsString.keepDigitsAndDots_idem (s : String) :
    JsString.keepDigitsAndDots (JsString.keepDigitsAndDots s) = JsString.keepDigitsAndDots s := by
  simp [JsString.keepDigitsAndDots, List.filter_filter]

/-- C29: when the sanitizer accepts a raw string under a key, it accepts the
sanitized value again under the same key and returns it unchanged. -/
theorem App.sanitize_idempotent (key raw value : String)
    (haccept : App.sanitize key raw = some value) :
    App.sanitize key value = some value := by
  by_cases hkey : key ∈ App.numericFields
  · rw [App.sanitize_numeric key raw hkey] at haccept
    by_cases hdots : 2 ≤ JsString.dotCount raw
    · rw [if_pos hdots] at haccept
      cases haccept
    · rw [if_neg hdots] at haccept
      cases haccept
      rw [App.sanitize_numeric _ _ hkey, JsString.dotCount_keepDigitsAndDots, if_neg hdots,
        JsString.keepDigitsAndDots_idem]
  · have hraw : App.sanitize key raw = some raw := by simp [App.sanitize, hkey]
    rw [hraw] at haccept
    cases haccept
    exact hraw

/-- The edit "2.5x" of `stopLoss` is accepted as "2.5", and "2.5" is accepted as
itself. -/
theorem App.sanitize_idempotent_witness :
    App.sanitize "stopLoss" "2.5x" = some "2.5" ∧ App.sanitize "stopLoss" "2.5" = some "2.5" :=
  ⟨by decide, App.sanitize_idempotent "stopLoss" "2.5x" "2.5" (by decide)⟩

/-- The type resolution of `runBacktest` is the `mapNodeType` of the contract
tests. -/
theorem BacktestPanel.nodeType_eq_mapNodeType (node : Node) :
    BacktestPanel.nodeType node = ApiContracts.mapNodeType node.type := by
  obtain ⟨id, t, data, pos⟩ := node
  simp only [BacktestPanel.nodeType, ApiContracts.mapNodeType]
  by_cases h1 : t = JsVal.str "indicatorNode"
  · subst h1; rfl
  by_cases h2 : t = JsVal.str "default"
  · subst h2; rfl
  by_cases ht : t.truthy = false
  · have h3 : t ≠ JsVal.str "logicNode" := by rintro rfl; simp [JsVal.truthy] at ht
    have h4 : t ≠ JsVal.str "actionNode" := by rintro rfl; simp [JsVal.truthy] at ht
    simp [h1, h2, h3, h4, ht]
  · by_cases h3 : t = JsVal.str "logicNode"
    · subst h3; rfl
    by_cases h4 : t = JsVal.str "actionNode"
    · subst h4; rfl
    have htrue : t.truthy = true := by simpa using ht
    simp [h1, h2, h3, h4, htrue, JsVal.or]

/-- C24: for every kind value, `undefined`, `null` and the empty string included,
`generateFromGraph`, `runBacktest` and `compileStrategy` compute the same type,
which is also the `mapNodeType` of the contract tests. -/
theorem nodeType_all_components_agree (node : Node) :
    ConfigEditor.nodeType node = BacktestPanel.nodeType node ∧
    App.nodeType node = BacktestPanel.nodeType node ∧
    ConfigEditor.nodeType node = App.nodeType node ∧
    BacktestPanel.nodeType node = ApiContracts.mapNodeType node.type :=
  ⟨ConfigEditor.nodeType_generate_eq_backtest node, App.nodeType_compile_eq_backtest node,
    (ConfigEditor.nodeType_generate_eq_backtest node).trans
      (App.nodeType_compile_eq_backtest node).symm,
    BacktestPanel.nodeType_eq_mapNodeType node⟩

/-- The top-level data of an updated node, away from `parameters` and from the
edited key when it is mirrored. -/
theorem App.get?_data_updateNode (key value : String) (node : Node) (k : String)
    (hparams : k ≠ "parameters")
    (hmirror : ¬ (k = key ∧
      (key = "operator" ∨ key = "value" ∨ key = "stopLoss" ∨ key = "takeProfit"))) :
    JsObj.get? k (App.updateNode key value node).data = JsObj.get? k node.data := by
  have hcopy : JsObj.get? k (JsObj.spread [] node.data) = JsObj.get? k node.data := by
    rw [JsObj.get?_spread]
    simp [JsObj.get?]
  unfold App.updateNode
  by_cases hk : key = "operator" ∨ key = "value" ∨ key = "stopLoss" ∨ key = "takeProfit"
  · have hne : ¬ k = key := fun e => hmirror ⟨e, hk⟩
    simp only [if_pos hk]
    rw [JsObj.get?_set, if_neg hne, JsObj.get?_set, if_neg hparams, hcopy]
  · simp only [if_neg hk]
    rw [JsObj.get?_set, if_neg hparams, hcopy]

/-- The nested parameters of an updated node, away from the edited key. -/
theorem App.get?_nested_updateNode (key value : String) (node : Node) (k : String)
    (hk : k ≠ key) :
    JsObj.get? k (nestedParameters (App.updateNode key value node)) =
      JsObj.get? k (nestedParameters node) := by
  rw [App.nestedParameters_updateNode, JsObj.get?_set, if_neg hk, JsObj.get?_spread]
  simp [JsObj.get?]

/-- C26: an accepted edit keeps the length and order of the node list; a node
with another id is unchanged; a node with the edited id keeps its id, kind and
position, every nested parameter other than the edited key, and every top-level
data field other than `parameters` and, for the keys operator, value, stopLoss
and takeProfit, the edited key; and when no node has the id the list is
unchanged. -/
theorem App.onParameterChange_frame (nds : List Node) (id key raw value : String)
    (haccept : App.sanitize key raw = some value) :
    (App.onParameterChange nds id key raw).length = nds.length ∧
    (∀ (i : Nat) (node : Node), nds[i]? = some node →
      ∃ node', (App.onParameterChange nds id key raw)[i]? = some node' ∧
        node'.id = node.id ∧ node'.type = node.type ∧ node'.position = node.position ∧
        (node.id ≠ id → node' = node) ∧
        (∀ k, k ≠ key →
          JsObj.get? k (nestedParameters node') = JsObj.get? k (nestedParameters node)) ∧
        (∀ k, k ≠ "parameters" →
          ¬ (k = key ∧
            (key = "operator" ∨ key = "value" ∨ key = "stopLoss" ∨ key = "takeProfit")) →
          JsObj.get? k node'.data = JsObj.get? k node.data)) ∧
    ((∀ node ∈ nds, node.id ≠ id) → App.onParameterChange nds id key raw = nds) := by
  have hmap : App.onParameterChange nds id key raw =
      nds.map (fun node => if node.id = id then App.updateNode key value node else node) := by
    simp [App.onParameterChange, haccept]
  refine ⟨?_, ?_, ?_⟩
  · rw [hmap, List.length_map]
  · intro i node hi
    by_cases hid : node.id = id
    · refine ⟨App.updateNode key value node, ?_, rfl, rfl, rfl, ?_, ?_, ?_⟩
      · rw [hmap, List.getElem?_map, hi]
        simp [hid]
      · intro hne
        exact absurd hid hne
      · intro k hk
        exact App.get?_nested_updateNode key value node k hk
      · intro k hk hmirror
        exact App.get?_data_updateNode key value node k hk hmirror
    · refine ⟨node, ?_, rfl, rfl, rfl, fun _ => rfl, fun _ _ => rfl, fun _ _ _ => rfl⟩
      rw [hmap, List.getElem?_map, hi]
      simp [hid]
  · intro hall
    rw [hmap]
    have hident : ∀ node ∈ nds,
        (fun node : Node => if node.id = id then App.updateNode key value node else node) node =
          node := by
      intro node hnode
      simp [hall node hnode]
    rw [List.map_congr_left hident, List.map_id']

/-- Editing `stopLoss` of the buy node to "2" leaves the start node as it is and
keeps the `actionType` of the buy node, nested and at top level. -/
theorem App.onParameterChange_frame_witness :
    (App.onParameterChange [startNode, buyNodeExample] "action-7" "stopLoss" "2").length = 2 ∧
    (∃ node', (App.onParameterChange [startNode, buyNodeExample] "action-7" "stopLoss" "2")[1]? =
        some node' ∧
      node'.id = "action-7" ∧
      JsObj.get? "actionType" (nestedParameters node') = some (JsVal.str "buy") ∧
      JsObj.get? "actionType" node'.data = some (JsVal.str "buy")) ∧
    (∃ node', (App.onParameterChange [startNode, buyNodeExample] "action-7" "stopLoss" "2")[0]? =
        some node' ∧ node' = startNode) := by
  have h := App.onParameterChange_frame [startNode, buyNodeExample] "action-7" "stopLoss" "2" "2"
    (by decide)
  refine ⟨h.1, ?_, ?_⟩
  · obtain ⟨node', h1, h2, _, _, _, h6, h7⟩ := h.2.1 1 buyNodeExample rfl
    exact ⟨node', h1, h2, (h6 "actionType" (by decide)).trans (by decide),
      (h7 "actionType" (by decide) (by decide)).trans (by decide)⟩
  · obtain ⟨node', h1, _, _, _, h5, _, _⟩ := h.2.1 0 startNode rfl
    exact ⟨node', h1, h5 (by decide)⟩

/-- C28: after an accepted edit of a key other than "onParameterChange" and
"label", the strategy that `runBacktest` builds from the resulting node list has,
at the position of each node with the edited id, a node whose parameter `key` is
the sanitized value, whatever the node held for that key before. -/
theorem edit_is_submitted (strategyName : JsVal) (nds : List Node) (edges : List Edge)
    (id key raw value : String) (haccept : App.sanitize key raw = some value)
    (hcb : key ≠ "onParameterChange") (hlabel : key ≠ "label") :
    ∀ (i : Nat) (node : Node), nds[i]? = some node → node.id = id →
      ∃ n', (BacktestPanel.strategy strategyName (App.onParameterChange nds id key raw)
          edges).nodes[i]? = some n' ∧
        n'.id = id ∧ JsObj.get? key n'.parameters = some (JsVal.str value) := by
  intro i node hi hid
  refine ⟨BacktestPanel.normalizeNode (App.updateNode key value node), ?_, ?_, ?_⟩
  · simp [BacktestPanel.strategy, App.onParameterChange, haccept, List.getElem?_map, hi, hid]
  · simpa [BacktestPanel.normalizeNode, App.updateNode] using hid
  · simp only [BacktestPanel.normalizeNode]
    rw [BacktestPanel.get?_params, if_neg (by simp [hcb, hlabel]),
      App.nestedParameters_updateNode, JsObj.get?_set, if_pos rfl]
    rfl

/-- Editing `stopLoss` of the buy node to "2" yields action parameters with
`stopLoss` "2". -/
theorem edit_is_submitted_witness :
    ∃ n', (BacktestPanel.strategy (JsVal.str "My Alpha Strategy")
        (App.onParameterChange [startNode, buyNodeExample] "action-7" "stopLoss" "2")
        []).nodes[1]? = some n' ∧
      n'.id = "action-7" ∧ JsObj.get? "stopLoss" n'.parameters = some (JsVal.str "2") :=
  edit_is_submitted (JsVal.str "My Alpha Strategy") [startNode, buyNodeExample] []
    "action-7" "stopLoss" "2" "2" (by decide) (by decide) (by decide) 1 buyNodeExample rfl rfl

end StrategyBuilder

/-! ## Backtest sessions, chart data, elapsed time and import -/

namespace StrategyBuilder

/-- What a poll tick can do: nothing, replace the progress snapshot only, or end
the job with the job id, the running flag and the interval cleared. -/
theorem BacktestPanel.poll_effect (s : BacktestPanel.State) (r : Option JsVal) :
    (BacktestPanel.poll s r).jobId = s.jobId ∧
      (BacktestPanel.poll s r).isRunning = s.isRunning ∧
      (BacktestPanel.poll s r).pollActive = s.pollActive ∨
    (BacktestPanel.poll s r).jobId = JsVal.null ∧
      (BacktestPanel.poll s r).isRunning = false ∧
      (BacktestPanel.poll s r).pollActive = false := by
  cases r with
  | none => exact Or.inl ⟨rfl, rfl, rfl⟩
  | some data =>
    cases data
    case undefined => exact Or.inl ⟨rfl, rfl, rfl⟩
    case null => exact Or.inl ⟨rfl, rfl, rfl⟩
    all_goals
      simp only [BacktestPanel.poll]
      split
      · exact Or.inr ⟨rfl, rfl, rfl⟩
      · split
        · exact Or.inr ⟨rfl, rfl, rfl⟩
        · exact Or.inl ⟨rfl, rfl, rfl⟩

/-- A terminal poll response clears the job id and the running flag. -/
theorem BacktestPanel.poll_terminal (s : BacktestPanel.State) (data : JsVal)
    (hterminal : (data.getProp "status" = JsVal.str "completed" ∧
        (data.getProp "result").truthy = true) ∨ data.getProp "status" = JsVal.str "error") :
    (BacktestPanel.poll s (some data)).jobId = JsVal.null ∧
    (BacktestPanel.poll s (some data)).isRunning = false ∧
    (BacktestPanel.poll s (some data)).pollActive = false := by
  cases data
  case undefined => simp [JsVal.getProp] at hterminal
  case null => simp [JsVal.getProp] at hterminal
  all_goals
    simp only [BacktestPanel.poll]
    split
    · exact ⟨rfl, rfl, rfl⟩
    · rename_i hdone
      rcases hterminal with h | h
      · exact absurd h hdone
      · rw [if_pos h]
        exact ⟨rfl, rfl, rfl⟩

/-- C27 fails on the code: a poll response is applied whenever it arrives, also
after the interval was cleared. In the run `lateResponseRun` the first job is
ended by its first poll answer while a second request is still in flight; after
the next press of the run button that late answer clears the running flag, and
the response of the new submission then sets the job id. The panel ends with the
job id "job-2" while it is not running, and with no poll for that job. -/
theorem BacktestPanel.late_poll_response_breaks_invariant :
    (BacktestPanel.run initialSession (lateResponseRun.take 4)).state.jobId = JsVal.null ∧
    (BacktestPanel.run initialSession (lateResponseRun.take 4)).state.isRunning = false ∧
    (BacktestPanel.run initialSession (lateResponseRun.take 4)).inFlight = 1 ∧
    (BacktestPanel.run initialSession (lateResponseRun.take 5)).state.isRunning = true ∧
    (BacktestPanel.run initialSession (lateResponseRun.take 5)).awaiting = true ∧
    (BacktestPanel.run initialSession (lateResponseRun.take 6)).state.isRunning = false ∧
    (BacktestPanel.run initialSession (lateResponseRun.take 6)).awaiting = true ∧
    (BacktestPanel.run initialSession lateResponseRun).state.jobId = JsVal.str "job-2" ∧
    (BacktestPanel.run initialSession lateResponseRun).state.isRunning = false ∧
    (BacktestPanel.run initialSession lateResponseRun).state.pollActive = false := by
  decide

set_option maxRecDepth 100000 in
/-- C25 fails on the code: for an equity curve of 400 points the step is 2, the
even positions give 200 points and the last position, which is odd, is added, so
the chart data has 201 points. -/
theorem BacktestResults.chartData_exceeds_200 :
    curve400.length = 400 ∧ (BacktestResults.chartData curve400).length = 201 := by
  decide

/-- C30 fails on the code: for 119.5 seconds `formatElapsed` shows "1m 60s", and
for 59.5 seconds it shows "60s". -/
theorem BacktestPanel.formatElapsed_shows_60 :
    BacktestPanel.formatElapsed (239 / 2) = "1m 60s" ∧
    BacktestPanel.formatElapsed (119 / 2) = "60s" := by
  have hround : BacktestPanel.mathRound (119 / 2) = 60 := by
    unfold BacktestPanel.mathRound
    rw [Int.floor_eq_iff]
    norm_num
  have hfloor : ⌊(239 / 2 : ℚ) / 60⌋ = 1 := by
    rw [Int.floor_eq_iff]
    norm_num
  have hmod : BacktestPanel.jsMod (239 / 2) 60 = 119 / 2 := by
    unfold BacktestPanel.jsMod
    rw [hfloor]
    norm_num
  constructor
  · unfold BacktestPanel.formatElapsed
    rw [if_neg (by norm_num), if_neg (by norm_num), hfloor, hmod, hround]
    decide
  · unfold BacktestPanel.formatElapsed
    rw [if_neg (by norm_num), if_pos (by norm_num), hround]
    decide

/-- C23 fails on the code: for the file content `{"name": "Broken", "nodes": 5}`
`importStrategy` shows the import error, yet the strategy name has become
"Broken". -/
theorem App.importStrategy_not_atomic :
    App.importStrategy freshEdit brokenFile =
      ({ freshEdit with strategyName := JsVal.str "Broken" }, true) ∧
    (App.importStrategy freshEdit brokenFile).2 = true ∧
    (App.importStrategy freshEdit brokenFile).1.strategyName ≠ freshEdit.strategyName ∧
    (App.importStrategy freshEdit brokenFile).1.nodes = freshEdit.nodes ∧
    (App.importStrategy freshEdit brokenFile).1.edges = freshEdit.edges := by
  decide

end StrategyBuilder

/-! ## Compile failures and error texts -/

namespace StrategyBuilder

namespace JsString

/-- A text without the separator is one piece. -/
theorem splitOnChar_of_not_mem (sep : Char) (l : List Char) (h : sep ∉ l) :
    splitOnChar sep l = [l] := by
  induction l with
  | nil => rfl
  | cons c cs ih =>
    have hc : ¬ c = sep := fun e => h (by simp [e])
    have hcs : sep ∉ cs := fun e => h (List.mem_cons_of_mem _ e)
    rw [splitOnChar, if_neg hc, ih hcs]

/-- The first piece of a text ends at its first separator. -/
theorem splitOnChar_append_sep (sep : Char) (l r : List Char) (h : sep ∉ l) :
    splitOnChar sep (l ++ sep :: r) = l :: splitOnChar sep r := by
  induction l with
  | nil => simp [splitOnChar]
  | cons c cs ih =>
    have hc : ¬ c = sep := fun e => h (by simp [e])
    have hcs : sep ∉ cs := fun e => h (List.mem_cons_of_mem _ e)
    rw [List.cons_append, splitOnChar, if_neg hc, ih hcs]

end JsString

/-- The lines of the placeholder for a message without a line break. -/
theorem App.placeholder_lines (errorMsg : JsVal) (h : '\n' ∉ errorMsg.toStr.toList) :
    JsString.split '\n' (App.placeholder errorMsg) =
      ["// Compilation Error:", "// " ++ errorMsg.toStr, "",
        "// Make sure the backend is running at http://127.0.0.1:8010"] := by
  have hchars : (App.placeholder errorMsg).toList =
      "// Compilation Error:".toList ++ '\n' ::
        (("// ".toList ++ errorMsg.toStr.toList) ++ '\n' ::
          ([] ++ '\n' ::
            "// Make sure the backend is running at http://127.0.0.1:8010".toList)) := by
    simp [App.placeholder, App.BACKEND_URL, String.toList]
  have h1 : '\n' ∉ "// Compilation Error:".toList := by decide
  have h2 : '\n' ∉ "// ".toList ++ errorMsg.toStr.toList := by
    intro hmem
    rcases List.mem_append.1 hmem with hm | hm
    · revert hm
      decide
    · exact h hm
  have h3 : '\n' ∉ ([] : List Char) := by simp
  have h4 : '\n' ∉ "// Make sure the backend is running at http://127.0.0.1:8010".toList := by
    decide
  simp only [JsString.split]
  rw [hchars, JsString.splitOnChar_append_sep _ _ _ h1, JsString.splitOnChar_append_sep _ _ _ h2,
    JsString.splitOnChar_append_sep _ _ _ h3, JsString.splitOnChar_of_not_mem _ _ h4]
  simp only [List.map_cons, List.map_nil]
  refine congrArg₂ _ rfl (congrArg₂ _ ?_ rfl)
  apply String.ext
  simp [String.toList]

/-- C21 fails on the code: the template of `compileStrategy` writes "// " before
the message once, so only the first line of the message is a comment. For a
rejection whose detail is "Unknown indicator" and "in node rsi-1" on two lines,
the stored placeholder has the non-empty line "in node rsi-1", which does not
begin with "//". -/
theorem App.placeholder_line_not_comment :
    (App.compileStrategyResponse (App.compileStrategyStart compileIdle)
        (Except.error twoLineError)).generatedCode =
      JsVal.str (App.placeholder (App.errorMsg twoLineError)) ∧
    App.placeholder (App.errorMsg twoLineError) =
      "// Compilation Error:\n// Unknown indicator\nin node rsi-1\n\n// Make sure the backend is running at http://127.0.0.1:8010" ∧
    "in node rsi-1" ∈ JsString.split '\n' (App.placeholder (App.errorMsg twoLineError)) ∧
    "in node rsi-1" ≠ "" ∧
    JsString.startsWith "in node rsi-1" "//" = false := by
  decide

/-- When the compile request fails, `compileStrategy` stores the placeholder
document, which contains the error message; and the compiling flag is cleared
whatever the outcome of the request. -/
theorem App.compileStrategy_failure_effect (s : App.CompileState) (error : JsVal) :
    (App.compileStrategyResponse (App.compileStrategyStart s)
        (Except.error error)).generatedCode =
      JsVal.str (App.placeholder (App.errorMsg error)) ∧
    (∃ pre post : String,
      App.placeholder (App.errorMsg error) = pre ++ (App.errorMsg error).toStr ++ post) ∧
    (∀ outcome : Except JsVal JsVal,
      (App.compileStrategyResponse (App.compileStrategyStart s) outcome).isCompiling =
        false) := by
  refine ⟨rfl, ⟨"// Compilation Error:\n// ",
    "\n\n// Make sure the backend is running at " ++ App.BACKEND_URL, ?_⟩, ?_⟩
  · simp [App.placeholder, String.append_assoc]
  · intro outcome
    cases outcome with
    | error e => rfl
    | ok data => cases data <;> rfl

end StrategyBuilder

namespace StrategyBuilder

/-- The operator `||` yields its left operand when that is truthy. -/
theorem JsVal.or_of_truthy (a b : JsVal) (h : a.truthy = true) : a.or b = a := by
  simp [JsVal.or, h]

/-- The operator `||` yields its right operand when the left one is falsy. -/
theorem JsVal.or_of_falsy (a b : JsVal) (h : a.truthy = false) : a.or b = b := by
  simp [JsVal.or, h]

/-- The message shown by `handleAction` when its request fails. -/
theorem PipelineMonitor.actionMsg_handleAction_error (s : PipelineMonitor.State)
    (action : String) (err : JsVal)
    (haction : action ∈
      ["gateway-start", "gateway-stop", "login", "pipeline-start", "pipeline-stop"])
    (hconfig : action = "pipeline-start" → s.selectedConfig.truthy = true) :
    (PipelineMonitor.handleAction s action (Except.error err)).actionMsg =
      JsVal.obj
        [("type", JsVal.str "error"),
          ("text",
            ((((err.getProp "response").getProp "data").getProp "detail").or
              (err.getProp "message")).or (JsVal.str "Action failed"))] := by
  by_cases hp : action = "pipeline-start"
  · have hc := hconfig hp
    subst hp
    simp [PipelineMonitor.handleAction, PipelineMonitor.showActionResult, hc]
  · simp [PipelineMonitor.handleAction, PipelineMonitor.showActionResult, hp, haction]

/-- C22, as stated, fails: for a transport failure with the message "Network
Error" and no detail from the server, `loadConfig` shows the fixed text "Failed
to load config", not the message of the error, while `runBacktest` shows the
message. -/
theorem ConfigEditor.error_text_skips_message :
    ((networkError.getProp "response").getProp "data").getProp "detail" = JsVal.undefined ∧
    networkError.getProp "message" = JsVal.str "Network Error" ∧
    (ConfigEditor.loadConfig configIdle (Except.error networkError)).error =
      JsVal.str "Failed to load config" ∧
    (BacktestPanel.runBacktestResponse (BacktestPanel.runBacktestStart idleState)
        (Except.error networkError)).error = JsVal.str "Network Error" := by
  decide

/-- C22, amended: when the request of a one-shot action fails with `err`, compile,
backtest submission and the monitor action show the detail of the server when it
is truthy, else the message of the error when it is truthy, else their generic
text ("Unknown error", "Unknown error", "Action failed"); the load, save, delete
and generate of the config editor show the detail when it is truthy and else
their fixed text, whatever the message of the error. -/
theorem error_text_preference (err detail message : JsVal)
    (hdetail : detail = ((err.getProp "response").getProp "data").getProp "detail")
    (hmessage : message = err.getProp "message")
    (cs : App.CompileState) (bs : BacktestPanel.State) (ms : PipelineMonitor.State)
    (action : String) (es : ConfigEditor.State) (name : String) (nodes : List Node)
    (haction : action ∈
      ["gateway-start", "gateway-stop", "login", "pipeline-start", "pipeline-stop"])
    (hconfig : action = "pipeline-start" → ms.selectedConfig.truthy = true)
    (hactive : es.activeConfig.truthy = true) (hnodes : 1 < nodes.length) :
    (detail.truthy = true →
      (App.compileStrategyResponse cs (Except.error err)).generatedCode =
        JsVal.str (App.placeholder detail) ∧
      (BacktestPanel.runBacktestResponse bs (Except.error err)).error = detail ∧
      (PipelineMonitor.handleAction ms action (Except.error err)).actionMsg =
        JsVal.obj [("type", JsVal.str "error"), ("text", detail)] ∧
      (ConfigEditor.loadConfig es (Except.error err)).error = detail ∧
      (ConfigEditor.saveConfig es (Except.error err)).error = detail ∧
      (ConfigEditor.deleteConfig es name (Except.error err)).error = detail ∧
      (ConfigEditor.generateFromGraphResponse es nodes (Except.error err)).error = detail) ∧
    (detail.truthy = false → message.truthy = true →
      (App.compileStrategyResponse cs (Except.error err)).generatedCode =
        JsVal.str (App.placeholder message) ∧
      (BacktestPanel.runBacktestResponse bs (Except.error err)).error = message ∧
      (PipelineMonitor.handleAction ms action (Except.error err)).actionMsg =
        JsVal.obj [("type", JsVal.str "error"), ("text", message)]) ∧
    (detail.truthy = false → message.truthy = false →
      (App.compileStrategyResponse cs (Except.error err)).generatedCode =
        JsVal.str (App.placeholder (JsVal.str "Unknown error")) ∧
      (BacktestPanel.runBacktestResponse bs (Except.error err)).error =
        JsVal.str "Unknown error" ∧
      (PipelineMonitor.handleAction ms action (Except.error err)).actionMsg =
        JsVal.obj [("type", JsVal.str "error"), ("text", JsVal.str "Action failed")]) ∧
    (detail.truthy = false →
      (ConfigEditor.loadConfig es (Except.error err)).error =
        JsVal.str "Failed to load config" ∧
      (ConfigEditor.saveConfig es (Except.error err)).error = JsVal.str "Failed to save" ∧
      (ConfigEditor.deleteConfig es name (Except.error err)).error =
        JsVal.str "Failed to delete" ∧
      (ConfigEditor.generateFromGraphResponse es nodes (Except.error err)).error =
        JsVal.str "Failed to generate YAML") := by
  have hcompile : (App.compileStrategyResponse cs (Except.error err)).generatedCode =
      JsVal.str (App.placeholder ((detail.or message).or (JsVal.str "Unknown error"))) := by
    rw [hdetail, hmessage]
    rfl
  have hbacktest : (BacktestPanel.runBacktestResponse bs (Except.error err)).error =
      (detail.or message).or (JsVal.str "Unknown error") := by
    rw [hdetail, hmessage]
    rfl
  have hmonitor : (PipelineMonitor.handleAction ms action (Except.error err)).actionMsg =
      JsVal.obj
        [("type", JsVal.str "error"),
          ("text", (detail.or message).or (JsVal.str "Action failed"))] := by
    rw [hdetail, hmessage]
    exact PipelineMonitor.actionMsg_handleAction_error ms action err haction hconfig
  have hload : (ConfigEditor.loadConfig es (Except.error err)).error =
      detail.or (JsVal.str "Failed to load config") := by
    rw [hdetail]
    rfl
  have hsave : (ConfigEditor.saveConfig es (Except.error err)).error =
      detail.or (JsVal.str "Failed to save") := by
    rw [hdetail]
    simp [ConfigEditor.saveConfig, hactive]
  have hdelete : (ConfigEditor.deleteConfig es name (Except.error err)).error =
      detail.or (JsVal.str "Failed to delete") := by
    rw [hdetail]
    rfl
  have hgenerate : (ConfigEditor.generateFromGraphResponse es nodes (Except.error err)).error =
      detail.or (JsVal.str "Failed to generate YAML") := by
    rw [hdetail]
    have hlen : ¬ nodes.length ≤ 1 := by omega
    simp [ConfigEditor.generateFromGraphResponse, hlen]
  refine ⟨?_, ?_, ?_, ?_⟩
  · intro hd
    rw [hcompile, hbacktest, hmonitor, hload, hsave, hdelete, hgenerate]
    simp [JsVal.or_of_truthy _ _ hd]
  · intro hd hm
    rw [hcompile, hbacktest, hmonitor]
    simp [JsVal.or_of_falsy _ _ hd, JsVal.or_of_truthy _ _ hm]
  · intro hd hm
    rw [hcompile, hbacktest, hmonitor]
    simp [JsVal.or_of_falsy _ _ hd, JsVal.or_of_falsy _ _ hm]
  · intro hd
    rw [hload, hsave, hdelete, hgenerate]
    simp [JsVal.or_of_falsy _ _ hd]

/-- A rejection with the detail "Config not found" is shown by its detail in the
backtest panel and in the config editor; a transport failure is shown by its
message in the backtest panel and by the fixed text in the config editor. -/
theorem error_text_preference_witness :
    (BacktestPanel.runBacktestResponse pollingState (Except.error detailError)).error =
      JsVal.str "Config not found" ∧
    (ConfigEditor.loadConfig configOpen (Except.error detailError)).error =
      JsVal.str "Config not found" ∧
    (BacktestPanel.runBacktestResponse pollingState (Except.error networkError)).error =
      JsVal.str "Network Error" ∧
    (ConfigEditor.deleteConfig configOpen "old"
      (Except.error networkError)).error = JsVal.str "Failed to delete" :=
  ⟨((error_text_preference detailError (JsVal.str "Config not found")
      (JsVal.str "Request failed with status code 404") (by decide) (by decide) compileIdle
      pollingState monitorState "login" configOpen "old"
      [startNode, logicNodeExample] (by decide) (by decide) (by decide) (by decide)).1
      (by decide)).2.1,
    ((error_text_preference detailError (JsVal.str "Config not found")
      (JsVal.str "Request failed with status code 404") (by decide) (by decide) compileIdle
      pollingState monitorState "login" configOpen "old"
      [startNode, logicNodeExample] (by decide) (by decide) (by decide) (by decide)).1
      (by decide)).2.2.2.1,
    ((error_text_preference networkError JsVal.undefined (JsVal.str "Network Error")
      (by decide) (by decide) compileIdle pollingState monitorState "login"
      configOpen "old" [startNode, logicNodeExample]
      (by decide) (by decide) (by decide) (by decide)).2.1 (by decide) (by decide)).2.1,
    ((error_text_preference networkError JsVal.undefined (JsVal.str "Network Error")
      (by decide) (by decide) compileIdle pollingState monitorState "login"
      configOpen "old" [startNode, logicNodeExample]
      (by decide) (by decide) (by decide) (by decide)).2.2.2 (by decide)).2.2.1⟩

end StrategyBuilder
